import Mathlib

/-!
# Authentication subsystem of the water-quality monitor backend

A shallow embedding of `controllers/userAuthController.js`,
`controllers/govAuthController.js`, `middleware/authMiddleware.js` and the two
schemas `models/User.js`, `models/GovernmentUser.js`.

* Request-body fields are the values `express.json()` delivers (`JsVal`):
  absent, null, booleans, numbers, strings, arrays and objects.
* A document carries the paths its schema declares and the two stamps that
  `timestamps: true` maintains; the version key, which no operation here
  changes, is left out.  Times are seconds.
* The two collections are lists of documents in natural order; `findOne` and
  `findById` return the first match, `save` of a loaded document updates the
  document carrying its `_id`, `save` of a new document appends it after the
  validation and the unique indexes declared by the schema have been checked.
* What the ODM does with a filter value or a field value that is an array or an
  object is a component of the store (`Odm`), as the sources leave it to the
  `mongoose` package.
* Handlers are functions from the store (and the request) to a response, the
  new store and the log of the external calls they made.
* The `jsonwebtoken` package bound to `process.env.JWT_SECRET` is a parameter
  (`Jwt`); `Math.random()`, the clock and the fresh `ObjectId` of a new document
  are inputs.
-/

namespace WaterQuality

/-! ## JavaScript values -/

/-- The values a field of a parsed JSON body, or of a stored document, can hold.
`undefined` is an absent field.  A number is identified by the string that
`Number.prototype.toString` gives for it (`"482913"`, `"0.5"`, `"1e+21"`,
`"12345678901234567000"`); the two zeros share the string `"0"`.  An array or an
object is identified by its JSON text. -/
inductive JsVal where
  | undefined
  | null
  | bool (b : Bool)
  | num (text : String)
  | str (s : String)
  | arr (json : String)
  | obj (json : String)
  deriving DecidableEq

namespace JsVal

/-- JavaScript truthiness, the negation of what `!v` tests. -/
def truthy : JsVal → Bool
  | undefined => false
  | null => false
  | bool b => b
  | num text => decide (text ≠ "0") && decide (text ≠ "NaN")
  | str s => decide (s ≠ "")
  | arr _ => true
  | obj _ => true

/-- Arrays and objects, which `===` compares by reference. -/
def isObject : JsVal → Bool
  | arr _ => true
  | obj _ => true
  | _ => false

/-- The operator `a !== b` between a value read from a document and a value
read from the request body: two primitives differ when they are different
values, `NaN` differs from everything, and an array or object is never the same
reference as a value of another origin. -/
def strictNe (a b : JsVal) : Bool :=
  a.isObject || b.isObject || decide (a = num "NaN") || decide (a ≠ b)

/-- The operator `typeof v`. -/
def typeof : JsVal → String
  | undefined => "undefined"
  | null => "object"
  | bool _ => "boolean"
  | num _ => "number"
  | str _ => "string"
  | arr _ => "object"
  | obj _ => "object"

/-- An optional string as a field value. -/
def ofOption : Option String → JsVal
  | none => undefined
  | some s => str s

end JsVal

/-- ECMAScript `WhiteSpace` and `LineTerminator` code points, the characters
`String.prototype.trim` strips. -/
def isJsWhiteSpace (c : Char) : Bool :=
  let n := c.toNat
  n == 0x09 || n == 0x0A || n == 0x0B || n == 0x0C || n == 0x0D || n == 0x20 ||
  n == 0xA0 || n == 0x1680 || (0x2000 ≤ n && n ≤ 0x200A) || n == 0x2028 ||
  n == 0x2029 || n == 0x202F || n == 0x205F || n == 0x3000 || n == 0xFEFF

/-- The method `s.trim()`. -/
def jsTrim (s : String) : String :=
  String.mk ((s.toList.dropWhile isJsWhiteSpace).reverse.dropWhile isJsWhiteSpace).reverse

/-- What the ODM does with an array or an object where the schema declares the
type `String`: as the value of a filter it either raises a cast error or yields
the test the query applies to the stored value; as the value of a field of a new
document it either raises a cast error or yields the string it is cast to. -/
structure Odm where
  filter : JsVal → Except String (JsVal → Bool)
  cast : JsVal → Except String String

/-- The cast of a field value to the schema type `String`: `null` and
`undefined` pass through, a boolean, a number or a string is rendered by its
`toString()`, an array or an object is left to the ODM. -/
def castString (odm : Odm) : JsVal → Except String JsVal
  | .undefined => .ok .undefined
  | .null => .ok .null
  | .bool b => .ok (.str (if b then "true" else "false"))
  | .num text => .ok (.str text)
  | .str s => .ok (.str s)
  | v => (odm.cast v).map JsVal.str

/-- The setter of a `String` path declared with `trim: true`, after the cast. -/
def castTrim (odm : Odm) (v : JsVal) : Except String JsVal :=
  (castString odm v).map fun
    | .str s => .str (jsTrim s)
    | w => w

/-! ## Documents and the store -/

abbrev ObjectId := String

/-- A document of `models/User.js`: `name` (trimmed string), `phone` (required,
unique), `email` (unique, sparse), `otp`, and the stamps of `timestamps: true`. -/
structure User where
  _id : ObjectId
  name : JsVal
  phone : JsVal
  email : JsVal
  otp : JsVal
  createdAt : Nat
  updatedAt : Nat
  deriving DecidableEq

/-- A document of `models/GovernmentUser.js`; `password` is the bcrypt hash and
is `undefined` in a projection that excludes it. -/
structure GovernmentUser where
  _id : ObjectId
  name : String
  govId : String
  email : String
  password : JsVal
  createdAt : Nat
  updatedAt : Nat
  deriving DecidableEq

/-- The credential store: the two collections and the ODM in front of them. -/
structure Store where
  users : List User
  governmentUsers : List GovernmentUser
  odm : Odm

/-- The store keeps `_id` unique inside each collection. -/
def Store.WF (st : Store) : Prop :=
  (st.users.map (·._id)).Nodup ∧ (st.governmentUsers.map (·._id)).Nodup

instance (st : Store) : Decidable st.WF := by
  unfold Store.WF; infer_instance

/-- The test a filter `{ path: value }` on a `String` path applies to the stored
value, or the cast error the query is rejected with: `null` and `undefined`
match a null or absent field, a boolean, a number or a string matches the field
equal to its `toString()`, an array or an object is left to the ODM. -/
def stringFilter (st : Store) : JsVal → Except String (JsVal → Bool)
  | .undefined => .ok fun stored => decide (stored = .null ∨ stored = .undefined)
  | .null => .ok fun stored => decide (stored = .null ∨ stored = .undefined)
  | .bool b => .ok fun stored => decide (stored = .str (if b then "true" else "false"))
  | .num text => .ok fun stored => decide (stored = .str text)
  | .str s => .ok fun stored => decide (stored = .str s)
  | v => st.odm.filter v

/-- The document `User.findOne({ phone })` resolves to, `none` when no document
matches or when the query is rejected. -/
def User.findOne (st : Store) (phone : JsVal) : Option User :=
  match stringFilter st phone with
  | .error _ => none
  | .ok test => st.users.find? (fun u => test u.phone)

/-- The query `User.findById(id)`. -/
def User.findById (st : Store) (id : ObjectId) : Option User :=
  st.users.find? (fun u => decide (u._id = id))

/-- The document `GovernmentUser.findOne({ govId })` resolves to, `none` when no
document matches or when the query is rejected. -/
def GovernmentUser.findOne (st : Store) (govId : JsVal) : Option GovernmentUser :=
  match stringFilter st govId with
  | .error _ => none
  | .ok test => st.governmentUsers.find? (fun g => test (.str g.govId))

/-- The query `GovernmentUser.findById(id)`. -/
def GovernmentUser.findById (st : Store) (id : ObjectId) : Option GovernmentUser :=
  st.governmentUsers.find? (fun g => decide (g._id = id))

/-- Write `otp` and the stamp `updatedAt` into the first document whose `_id`
is `id`. -/
def setOtp (id : ObjectId) (otp : JsVal) (now : Nat) : List User → List User
  | [] => []
  | u :: us =>
    if u._id = id then { u with otp := otp, updatedAt := now } :: us
    else u :: setOtp id otp now us

/-- The assignment `user.otp = otp` followed by `user.save()` on a loaded
document at time `now`: when the value differs from the loaded one the path is
modified, and the save updates `otp` and `updatedAt` on the document with the
same `_id`; when it does not differ nothing is modified and nothing is written. -/
def User.saveOtp (st : Store) (user : User) (otp : JsVal) (now : Nat) : Store :=
  if user.otp = otp then st
  else { st with users := setOtp user._id otp now st.users }

/-- The call `user.save()` on a new document: the validation refuses a document
without a non-empty `phone`, and the insert is refused with a duplicate-key
error by the unique indexes on `_id`, `phone` and (for documents that carry the
field) `email`. -/
def User.saveNew (st : Store) (user : User) : Except String Store :=
  if user.phone = .undefined ∨ user.phone = .null ∨ user.phone = .str "" then
    .error "User validation failed: phone: Path phone is required."
  else if st.users.any (fun u => decide (u._id = user._id)) then
    .error "E11000 duplicate key error: _id"
  else if st.users.any (fun u => decide (u.phone = user.phone)) then
    .error "E11000 duplicate key error: phone"
  else if user.email ≠ .undefined ∧ st.users.any (fun u => decide (u.email = user.email)) then
    .error "E11000 duplicate key error: email"
  else
    .ok { st with users := st.users ++ [user] }

/-! ## Responses and external calls -/

/-- The `user` object of the login response. -/
structure LoginUser where
  id : ObjectId
  name : JsVal
  phone : JsVal
  email : JsVal
  deriving DecidableEq

/-- The JSON bodies the handlers and guards send. -/
inductive Body where
  | message (message : String)
  | error (error : String)
  | login (message : String) (token : String) (user : LoginUser)
  | govLogin (message : String) (token : String) (role : String)
  | govProfile (id : ObjectId) (name govId email role : String)
  deriving DecidableEq

/-- The `token` field of a body, when it has one. -/
def Body.token : Body → Option String
  | .login _ t _ => some t
  | .govLogin _ t _ => some t
  | _ => none

/-- What `res.status(s).json(b)` sends. -/
structure Response where
  status : Nat
  body : Body
  deriving DecidableEq

/-- The payload of a session token with its registered time claims (seconds). -/
structure Claims where
  id : ObjectId
  role : String
  iat : Nat
  exp : Nat
  deriving DecidableEq

/-- The calls a handler or guard makes to its collaborators, in order. -/
inductive Effect where
  | userFindOne (phone : JsVal)
  | userFindById (id : ObjectId)
  | userSave (id : ObjectId)
  | govFindOne (govId : JsVal)
  | govFindById (id : ObjectId)
  | bcryptCompare
  | jwtSign (claims : Claims)
  | jwtVerify (token : Option String)
  | consoleLog (phone : JsVal) (otp : String)
  deriving DecidableEq

/-- The outcome of a route handler. -/
structure HandlerResult where
  res : Response
  store : Store
  log : List Effect

/-! ## Session tokens -/

/-- The `jsonwebtoken` package bound to the process-wide secret: `encode` signs
a claim set, `decode` checks format and signature of a token string and returns
its claim set. -/
structure Jwt where
  encode : Claims → String
  decode : String → Option Claims

/-- The number of seconds in a time span string such as `"7d"` or `"1d"`:
decimal digits followed by one of the units `s`, `m`, `h`, `d`. -/
def timespan (span : String) : Option Nat :=
  let digits := span.toList.takeWhile Char.isDigit
  let unit := span.toList.dropWhile Char.isDigit
  let n := digits.foldl (fun acc c => 10 * acc + (c.toNat - 48)) 0
  if digits = [] then none
  else if unit = ['s'] then some n
  else if unit = ['m'] then some (n * 60)
  else if unit = ['h'] then some (n * 3600)
  else if unit = ['d'] then some (n * 86400)
  else none

/-- The call `jwt.sign({ id, role }, process.env.JWT_SECRET, { expiresIn })` at
time `now`: the claim set that is signed is stamped with `iat = now` and
`exp = now + expiresIn`.  A span that does not parse makes the call throw. -/
def jwtSign (J : Jwt) (id : ObjectId) (role : String) (expiresIn : String) (now : Nat) :
    Except String (Claims × String) :=
  match timespan expiresIn with
  | none => .error "expiresIn should be a number of seconds or string representing a timespan"
  | some ttl =>
    let claims : Claims := { id := id, role := role, iat := now, exp := now + ttl }
    .ok (claims, J.encode claims)

/-- Modelled from the spec: `jwt.verify(token, process.env.JWT_SECRET)` of the
`jsonwebtoken` package, which the sources import but do not contain.  It fails
when no token is given, when the token is malformed or its signature is bad
(`decode` fails), or when `now > expiresAt`. -/
def jwtVerify (J : Jwt) (token : Option String) (now : Nat) : Option Claims :=
  match token with
  | none => none
  | some t =>
    if t = "" then none
    else
      match J.decode t with
      | none => none
      | some claims => if now > claims.exp then none else some claims

/-! ## Double-precision arithmetic -/

/-- The integer nearest to `q`, the even one of the two when `q` lies half way. -/
def roundHalfEven (q : ℚ) : Int :=
  if q - ⌊q⌋ < 1 / 2 then ⌊q⌋
  else if 1 / 2 < q - ⌊q⌋ then ⌊q⌋ + 1
  else if ⌊q⌋ % 2 = 0 then ⌊q⌋ else ⌊q⌋ + 1

/-- The IEEE 754 binary64 value nearest to the real `x`, ties to even: with
`2 ^ e ≤ |x| < 2 ^ (e + 1)` the value is a multiple of `2 ^ (e - 52)`.  The
exponent is not bounded; the numbers of this program stay below `2 ^ 20`, and a
product small enough to be subnormal vanishes in the sum with `100000` under
either rounding. -/
def roundDouble (x : ℚ) : ℚ :=
  if x = 0 then 0
  else (roundHalfEven (x / 2 ^ (Int.log 2 |x| - 52)) : ℚ) * 2 ^ (Int.log 2 |x| - 52)

/-- The rationals that are binary64 values. -/
def IsDouble (x : ℚ) : Prop := roundDouble x = x

instance (x : ℚ) : Decidable (IsDouble x) := by
  unfold IsDouble; infer_instance

/-! ## `controllers/userAuthController.js` -/

/-- The destructured body `const { phone, name, email } = req.body`. -/
structure RequestOtpBody where
  phone : JsVal
  name : JsVal
  email : JsVal

/-- The destructured body `const { phone, otp } = req.body`. -/
structure VerifyOtpBody where
  phone : JsVal
  otp : JsVal

/-- The integer `Math.floor(100000 + Math.random() * 900000)` for the draw `r`,
a binary64 value: the product and the sum are each rounded to binary64. -/
def otpNumber (r : ℚ) : Int := ⌊roundDouble (100000 + roundDouble (r * 900000))⌋

/-- The same expression read over the exact rationals, as the specification
words it: `floor(100000 + r * 900000)` without rounding. -/
def otpNumberExact (r : ℚ) : Int := ⌊(100000 : ℚ) + r * 900000⌋

/-- The code `Math.floor(100000 + Math.random() * 900000).toString()`: the
decimal numeral of the integer, which is what `Number.prototype.toString` gives
for an integer below `10 ^ 21`. -/
def otpCode (r : ℚ) : String := toString (otpNumber r)

/-- The document `new User({ phone, name, email, otp })` created at time `now`
with the identifier `id`: each field is cast by its schema type, and a value
that cannot be cast makes the validation of `save()` fail. -/
def User.create (odm : Odm) (id : ObjectId) (body : RequestOtpBody) (otp : String)
    (now : Nat) : Except String User :=
  match castString odm body.phone, castTrim odm body.name, castString odm body.email with
  | .ok phone, .ok name, .ok email =>
    .ok { _id := id, name := name, phone := phone, email := email, otp := .str otp,
          createdAt := now, updatedAt := now }
  | .error e, _, _ => .error e
  | _, .error e, _ => .error e
  | _, _, .error e => .error e

/-- The handler `requestOtp` at time `now`; `r` is the value of `Math.random()`
and `newId` the identifier a new document receives. -/
def requestOtp (st : Store) (body : RequestOtpBody) (r : ℚ) (newId : ObjectId)
    (now : Nat) : HandlerResult :=
  if !body.phone.truthy then
    { res := ⟨400, .message "Phone number is required"⟩, store := st, log := [] }
  else
    let otp := otpCode r
    match stringFilter st body.phone with
    | .error e =>
      { res := ⟨500, .error e⟩, store := st, log := [.userFindOne body.phone] }
    | .ok _ =>
      match User.findOne st body.phone with
      | none =>
        match User.create st.odm newId body otp now with
        | .error e =>
          { res := ⟨500, .error e⟩, store := st,
            log := [.userFindOne body.phone, .userSave newId] }
        | .ok user =>
          match User.saveNew st user with
          | .error e =>
            { res := ⟨500, .error e⟩, store := st,
              log := [.userFindOne body.phone, .userSave newId] }
          | .ok st1 =>
            { res := ⟨200, .message "OTP sent successfully"⟩, store := st1,
              log := [.userFindOne body.phone, .userSave newId,
                      .consoleLog body.phone otp] }
      | some user =>
        { res := ⟨200, .message "OTP sent successfully"⟩,
          store := User.saveOtp st user (.str otp) now,
          log := [.userFindOne body.phone, .userSave user._id, .consoleLog body.phone otp] }

/-- The handler `verifyOtp` at time `now` (seconds). -/
def verifyOtp (J : Jwt) (st : Store) (body : VerifyOtpBody) (now : Nat) : HandlerResult :=
  if !body.phone.truthy || !body.otp.truthy then
    { res := ⟨400, .message "Phone and OTP are required"⟩, store := st, log := [] }
  else
    match stringFilter st body.phone with
    | .error e =>
      { res := ⟨500, .error e⟩, store := st, log := [.userFindOne body.phone] }
    | .ok _ =>
      match User.findOne st body.phone with
      | none =>
        { res := ⟨404, .message "User not found"⟩, store := st,
          log := [.userFindOne body.phone] }
      | some user =>
        if user.otp.strictNe body.otp then
          { res := ⟨400, .message "Invalid OTP"⟩, store := st,
            log := [.userFindOne body.phone] }
        else
          let st1 := User.saveOtp st user .null now
          match jwtSign J user._id "user" "7d" now with
          | .error e =>
            { res := ⟨500, .error e⟩, store := st1,
              log := [.userFindOne body.phone, .userSave user._id] }
          | .ok (claims, token) =>
            { res := ⟨200, .login "Login successful" token
                        { id := user._id, name := user.name, phone := user.phone,
                          email := user.email }⟩,
              store := st1,
              log := [.userFindOne body.phone, .userSave user._id, .jwtSign claims] }

/-! ## `controllers/govAuthController.js` -/

/-- The destructured body `const { govId, password } = req.body`. -/
structure GovLoginBody where
  govId : JsVal
  password : JsVal

/-- The handler `govLogin` at time `now`; `compare` is `bcrypt.compare`, which
rejects arguments that are not both strings. -/
def govLogin (J : Jwt) (compare : String → String → Bool) (st : Store)
    (body : GovLoginBody) (now : Nat) : HandlerResult :=
  match stringFilter st body.govId with
  | .error e =>
    { res := ⟨500, .error e⟩, store := st, log := [.govFindOne body.govId] }
  | .ok _ =>
    match GovernmentUser.findOne st body.govId with
    | none =>
      { res := ⟨404, .error "Government user not found"⟩, store := st,
        log := [.govFindOne body.govId] }
    | some govUser =>
      match body.password, govUser.password with
      | .str password, .str hash =>
        if !compare password hash then
          { res := ⟨400, .error "Invalid credentials"⟩, store := st,
            log := [.govFindOne body.govId, .bcryptCompare] }
        else
          match jwtSign J govUser._id "government" "1d" now with
          | .error e =>
            { res := ⟨500, .error e⟩, store := st,
              log := [.govFindOne body.govId, .bcryptCompare] }
          | .ok (claims, token) =>
            { res := ⟨200, .govLogin "✅ Login successful" token "government"⟩, store := st,
              log := [.govFindOne body.govId, .bcryptCompare, .jwtSign claims] }
      | p, h =>
        { res := ⟨500, .error ("Illegal arguments: " ++ p.typeof ++ ", " ++ h.typeof)⟩,
          store := st, log := [.govFindOne body.govId, .bcryptCompare] }

/-! ## `middleware/authMiddleware.js` -/

/-- What a guard stores in `req.user`: a document of either collection. -/
inductive Principal where
  | citizen (user : User)
  | official (govUser : GovernmentUser)
  deriving DecidableEq

/-- The parts of the Express request the guards and `getGovProfile` touch:
`req.headers.authorization`, `req.user` and `req.govUser`. -/
structure Request where
  authorization : Option String
  user : Option Principal
  govUser : Option GovernmentUser
  deriving DecidableEq

/-- A request as it arrives from the network: no property has been attached. -/
def Request.incoming (authorization : Option String) : Request :=
  { authorization := authorization, user := none, govUser := none }

/-- The outcome of a guard: the request as it leaves it, the responses sent, the
number of calls of `next`, and the calls made to the token service and the store. -/
structure GuardResult where
  req : Request
  sent : List Response
  nextCalls : Nat
  log : List Effect
  deriving DecidableEq

/-- The test `req.headers.authorization && req.headers.authorization.startsWith("Bearer")`. -/
def hasBearer (authorization : Option String) : Bool :=
  match authorization with
  | none => false
  | some h => decide (h ≠ "") && "Bearer".toList.isPrefixOf h.toList

/-- The expression `req.headers.authorization.split(" ")[1]`. -/
def headerToken (h : String) : Option String :=
  ((h.toList.splitOn ' ')[1]?).map String.mk

/-- The projection `.select("-otp")`. -/
def User.withoutOtp (u : User) : User := { u with otp := .undefined }

/-- The projection `.select("-password")`. -/
def GovernmentUser.withoutPassword (g : GovernmentUser) : GovernmentUser :=
  { g with password := .undefined }

/-- The guard `protectUser` at time `now`. -/
def protectUser (J : Jwt) (st : Store) (now : Nat) (req : Request) : GuardResult :=
  if hasBearer req.authorization then
    let token := req.authorization.bind headerToken
    match jwtVerify J token now with
    | none =>
      { req := req, sent := [⟨401, .error "Not authorized, token failed"⟩], nextCalls := 0,
        log := [.jwtVerify token] }
    | some decoded =>
      match User.findById st decoded.id with
      | none =>
        { req := { req with user := none },
          sent := [⟨401, .error "Not authorized, user not found"⟩], nextCalls := 0,
          log := [.jwtVerify token, .userFindById decoded.id] }
      | some u =>
        { req := { req with user := some (.citizen u.withoutOtp) }, sent := [], nextCalls := 1,
          log := [.jwtVerify token, .userFindById decoded.id] }
  else
    { req := req, sent := [⟨401, .error "Not authorized, no token provided"⟩], nextCalls := 0,
      log := [] }

/-- The guard `protectGovUser` at time `now`. -/
def protectGovUser (J : Jwt) (st : Store) (now : Nat) (req : Request) : GuardResult :=
  if hasBearer req.authorization then
    let token := req.authorization.bind headerToken
    match jwtVerify J token now with
    | none =>
      { req := req, sent := [⟨401, .error "Not authorized, token failed"⟩], nextCalls := 0,
        log := [.jwtVerify token] }
    | some decoded =>
      match GovernmentUser.findById st decoded.id with
      | none =>
        { req := { req with user := none },
          sent := [⟨401, .error "Not authorized, government user not found"⟩], nextCalls := 0,
          log := [.jwtVerify token, .govFindById decoded.id] }
      | some g =>
        { req := { req with user := some (.official g.withoutPassword) }, sent := [],
          nextCalls := 1, log := [.jwtVerify token, .govFindById decoded.id] }
  else
    { req := req, sent := [⟨401, .error "Not authorized, no token provided"⟩], nextCalls := 0,
      log := [] }

/-- The handler `getGovProfile`, which reads `req.govUser`. -/
def getGovProfile (req : Request) : Response :=
  match req.govUser with
  | none => ⟨404, .error "Government user not found"⟩
  | some govUser =>
    ⟨200, .govProfile govUser._id govUser.name govUser.govId govUser.email "government"⟩

/-- The route `router.get('/profile', protectGovUser, getGovProfile)`: the
handler runs on the request the guard leaves, if the guard called `next`. -/
def govProfileRoute (J : Jwt) (st : Store) (now : Nat) (req : Request) : List Response :=
  let g := protectGovUser J st now req
  if g.nextCalls = 0 then g.sent else g.sent ++ [getGovProfile g.req]

/-! ## Sequences of requests -/

/-- A client that sends `verifyOtp` requests for one phone one after the other,
each with its own `otp` value and at its own time, each on the store the
previous one left; the result is the final store and the responses in order. -/
def verifyOtpRepeated (J : Jwt) (phone : JsVal) :
    Store → List (JsVal × Nat) → Store × List Response
  | st, [] => (st, [])
  | st, (otp, now) :: rest =>
    let out := verifyOtp J st ⟨phone, otp⟩ now
    let later := verifyOtpRepeated J phone out.store rest
    (later.1, out.res :: later.2)

/-! ## Fixtures for the concrete instances -/

/-- An ODM that answers every array and object with a cast error, as `mongoose`
does for a plain object without operator keys. -/
def demoOdm : Odm :=
  { filter := fun _ => .error "Cast to string failed"
    cast := fun _ => .error "Cast to string failed" }

/-- A token service that accepts exactly two token strings: a citizen token for
the identifier `"65f0a1"` that expires at 605800 and an official token for the
identifier `"65f0b2"` that expires at 87400. -/
def demoJwt : Jwt :=
  { encode := fun c => "jwt." ++ c.role ++ "." ++ c.id ++ "." ++ toString c.exp
    decode := fun t =>
      if t = "citizen-token" then some { id := "65f0a1", role := "user", iat := 1000, exp := 605800 }
      else if t = "official-token" then
        some { id := "65f0b2", role := "government", iat := 1000, exp := 87400 }
      else none }

/-- A password comparison that accepts the password `"secret"` for one hash. -/
def demoCompare (password hash : String) : Bool :=
  decide (password = "secret") && decide (hash = "$2a$10$hash")

/-- A citizen with the pending code of the scenario. -/
def asha : User :=
  { _id := "65f0a1", name := .str "Asha", phone := .str "9998887776",
    email := .undefined, otp := .str "482913", createdAt := 100, updatedAt := 500 }

/-- An official. -/
def officer : GovernmentUser :=
  { _id := "65f0b2", name := "Officer", govId := "GOV001", email := "gov001@example.org",
    password := .str "$2a$10$hash", createdAt := 50, updatedAt := 50 }

/-- A store with one citizen and one official. -/
def demoStore : Store := { users := [asha], governmentUsers := [officer], odm := demoOdm }

/-- A store in which a citizen and an official carry the same `_id`, in both
directions. -/
def clashStore : Store :=
  { users := [asha, { _id := "65f0b2", name := .str "Ravi", phone := .str "9990001112",
                      email := .undefined, otp := .null, createdAt := 200,
                      updatedAt := 700 }],
    governmentUsers := [officer, { _id := "65f0a1", name := "Clerk", govId := "GOV002",
                                   email := "gov002@example.org",
                                   password := .str "$2a$10$other", createdAt := 60,
                                   updatedAt := 60 }],
    odm := demoOdm }

/-! ## Properties -/


/-! ### Lookups -/

theorem userFindOne_filter (st : Store) (phone : JsVal) (user : User)
    (h : User.findOne st phone = some user) :
    ∃ test, stringFilter st phone = .ok test ∧
      st.users.find? (fun u => test u.phone) = some user := by
  unfold User.findOne at h
  cases hf : stringFilter st phone with
  | error e => simp [hf] at h
  | ok test => exact ⟨test, rfl, by simpa [hf] using h⟩

theorem userFindOne_of_filter (st : Store) (phone : JsVal) (test : JsVal → Bool)
    (h : stringFilter st phone = .ok test) :
    User.findOne st phone = st.users.find? (fun u => test u.phone) := by
  simp [User.findOne, h]

theorem govFindOne_filter (st : Store) (govId : JsVal) (g : GovernmentUser)
    (h : GovernmentUser.findOne st govId = some g) :
    ∃ test, stringFilter st govId = .ok test := by
  unfold GovernmentUser.findOne at h
  cases hf : stringFilter st govId with
  | error e => simp [hf] at h
  | ok test => exact ⟨test, rfl⟩

/-! ### `verifyOtp`, branch by branch -/

theorem verifyOtp_missing (J : Jwt) (st : Store) (body : VerifyOtpBody) (now : Nat)
    (h : body.phone.truthy = false ∨ body.otp.truthy = false) :
    verifyOtp J st body now =
      { res := ⟨400, .message "Phone and OTP are required"⟩, store := st, log := [] } := by
  unfold verifyOtp
  rcases h with h | h <;> simp [h]

theorem verifyOtp_rejected (J : Jwt) (st : Store) (body : VerifyOtpBody) (now : Nat)
    (e : String) (hp : body.phone.truthy = true) (ho : body.otp.truthy = true)
    (h : stringFilter st body.phone = .error e) :
    verifyOtp J st body now =
      { res := ⟨500, .error e⟩, store := st, log := [.userFindOne body.phone] } := by
  simp [verifyOtp, hp, ho, h]

theorem verifyOtp_not_found (J : Jwt) (st : Store) (body : VerifyOtpBody) (now : Nat)
    (test : JsVal → Bool) (hp : body.phone.truthy = true) (ho : body.otp.truthy = true)
    (hq : stringFilter st body.phone = .ok test)
    (h : User.findOne st body.phone = none) :
    verifyOtp J st body now =
      { res := ⟨404, .message "User not found"⟩, store := st,
        log := [.userFindOne body.phone] } := by
  simp [verifyOtp, hp, ho, hq, h]

theorem verifyOtp_mismatch (J : Jwt) (st : Store) (body : VerifyOtpBody) (now : Nat)
    (user : User) (hp : body.phone.truthy = true) (ho : body.otp.truthy = true)
    (h : User.findOne st body.phone = some user)
    (hne : user.otp.strictNe body.otp = true) :
    verifyOtp J st body now =
      { res := ⟨400, .message "Invalid OTP"⟩, store := st,
        log := [.userFindOne body.phone] } := by
  obtain ⟨test, hq, _⟩ := userFindOne_filter st body.phone user h
  simp [verifyOtp, hp, ho, hq, h, hne]

theorem timespan_7d : timespan "7d" = some 604800 := by decide

theorem timespan_1d : timespan "1d" = some 86400 := by decide

theorem verifyOtp_match (J : Jwt) (st : Store) (body : VerifyOtpBody) (now : Nat)
    (user : User) (hp : body.phone.truthy = true) (ho : body.otp.truthy = true)
    (h : User.findOne st body.phone = some user)
    (heq : user.otp.strictNe body.otp = false) :
    verifyOtp J st body now =
      { res := ⟨200, .login "Login successful"
                  (J.encode { id := user._id, role := "user", iat := now, exp := now + 604800 })
                  { id := user._id, name := user.name, phone := user.phone,
                    email := user.email }⟩,
        store := User.saveOtp st user .null now,
        log := [.userFindOne body.phone, .userSave user._id,
                .jwtSign { id := user._id, role := "user", iat := now, exp := now + 604800 }] } := by
  obtain ⟨test, hq, _⟩ := userFindOne_filter st body.phone user h
  simp [verifyOtp, hp, ho, hq, h, heq, jwtSign, timespan_7d]

theorem strictNe_str_self (s : String) : (JsVal.str s).strictNe (.str s) = false := by
  simp [JsVal.strictNe, JsVal.isObject]

theorem strictNe_of_no_pending (a b : JsVal) (ha : a = .null ∨ a = .undefined)
    (hb : b.truthy = true) : a.strictNe b = true := by
  rcases ha with ha | ha <;> subst ha <;> cases b <;> simp_all [JsVal.strictNe, JsVal.truthy]

/-- C1 fails as stated: with the empty string as `otp`, which differs from the
stored code "482913", the handler stops at the presence check and answers 400
"Phone and OTP are required", not "Invalid OTP". -/
theorem empty_otp_is_not_invalid_otp :
    User.findOne demoStore (.str "9998887776") = some asha ∧
    asha.otp.strictNe (.str "") = true ∧
    (verifyOtp demoJwt demoStore ⟨.str "9998887776", .str ""⟩ 1000).res =
      ⟨400, .message "Phone and OTP are required"⟩ ∧
    (verifyOtp demoJwt demoStore ⟨.str "9998887776", .str ""⟩ 1000).res ≠
      ⟨400, .message "Invalid OTP"⟩ := by
  decide

/-- C1 (as the code has it): when the code supplied to `verifyOtp` differs
(under `!==`) from the code stored for the citizen with that phone, the store is
unchanged (so the citizen keeps the stored code) and the response is a 400
without token: "Invalid OTP" when phone and code are both present, "Phone and
OTP are required" when one of them is missing or falsy. -/
theorem verifyOtp_mismatch_no_effect (J : Jwt) (st : Store) (body : VerifyOtpBody)
    (now : Nat) (user : User)
    (hfound : User.findOne st body.phone = some user)
    (hne : user.otp.strictNe body.otp = true) :
    (verifyOtp J st body now).store = st ∧
    User.findOne (verifyOtp J st body now).store body.phone = some user ∧
    (verifyOtp J st body now).res.body.token = none ∧
    (verifyOtp J st body now).res.status = 400 ∧
    (body.phone.truthy = true → body.otp.truthy = true →
      (verifyOtp J st body now).res = ⟨400, .message "Invalid OTP"⟩) ∧
    (body.phone.truthy = false ∨ body.otp.truthy = false →
      (verifyOtp J st body now).res = ⟨400, .message "Phone and OTP are required"⟩) := by
  by_cases hm : body.phone.truthy = true ∧ body.otp.truthy = true
  · rw [verifyOtp_mismatch J st body now user hm.1 hm.2 hfound hne]
    refine ⟨rfl, hfound, rfl, rfl, fun _ _ => rfl, fun h => ?_⟩
    rcases h with h | h
    · rw [hm.1] at h; cases h
    · rw [hm.2] at h; cases h
  · have hm2 : body.phone.truthy = false ∨ body.otp.truthy = false := by
      by_cases hp : body.phone.truthy = true
      · right
        simpa [hp] using hm
      · left
        simpa using hp
    rw [verifyOtp_missing J st body now hm2]
    refine ⟨rfl, hfound, rfl, rfl, fun hp ho => ?_, fun _ => rfl⟩
    rcases hm2 with h | h
    · rw [h] at hp; cases hp
    · rw [h] at ho; cases ho

theorem verifyOtp_mismatch_no_effect_witness :
    (verifyOtp demoJwt demoStore ⟨.str "9998887776", .str "000000"⟩ 1000).store = demoStore ∧
    User.findOne (verifyOtp demoJwt demoStore ⟨.str "9998887776", .str "000000"⟩ 1000).store
      (.str "9998887776") = some asha ∧
    (verifyOtp demoJwt demoStore ⟨.str "9998887776", .str "000000"⟩ 1000).res.body.token = none ∧
    (verifyOtp demoJwt demoStore ⟨.str "9998887776", .str "000000"⟩ 1000).res.status = 400 ∧
    (verifyOtp demoJwt demoStore ⟨.str "9998887776", .str "000000"⟩ 1000).res =
      ⟨400, .message "Invalid OTP"⟩ :=
  have h := verifyOtp_mismatch_no_effect demoJwt demoStore
    ⟨.str "9998887776", .str "000000"⟩ 1000 asha (by decide) (by decide)
  ⟨h.1, h.2.1, h.2.2.1, h.2.2.2.1, h.2.2.2.2.1 (by decide) (by decide)⟩

/-! ### The guards, branch by branch -/

theorem protectUser_no_bearer (J : Jwt) (st : Store) (now : Nat) (req : Request)
    (h : hasBearer req.authorization = false) :
    protectUser J st now req =
      { req := req, sent := [⟨401, .error "Not authorized, no token provided"⟩],
        nextCalls := 0, log := [] } := by
  simp [protectUser, h]

theorem protectGovUser_no_bearer (J : Jwt) (st : Store) (now : Nat) (req : Request)
    (h : hasBearer req.authorization = false) :
    protectGovUser J st now req =
      { req := req, sent := [⟨401, .error "Not authorized, no token provided"⟩],
        nextCalls := 0, log := [] } := by
  simp [protectGovUser, h]

theorem protectUser_token_failed (J : Jwt) (st : Store) (now : Nat) (req : Request)
    (h : hasBearer req.authorization = true)
    (hv : jwtVerify J (req.authorization.bind headerToken) now = none) :
    protectUser J st now req =
      { req := req, sent := [⟨401, .error "Not authorized, token failed"⟩],
        nextCalls := 0, log := [.jwtVerify (req.authorization.bind headerToken)] } := by
  simp [protectUser, h, hv]

theorem protectGovUser_token_failed (J : Jwt) (st : Store) (now : Nat) (req : Request)
    (h : hasBearer req.authorization = true)
    (hv : jwtVerify J (req.authorization.bind headerToken) now = none) :
    protectGovUser J st now req =
      { req := req, sent := [⟨401, .error "Not authorized, token failed"⟩],
        nextCalls := 0, log := [.jwtVerify (req.authorization.bind headerToken)] } := by
  simp [protectGovUser, h, hv]

theorem protectUser_not_found (J : Jwt) (st : Store) (now : Nat) (req : Request)
    (decoded : Claims) (h : hasBearer req.authorization = true)
    (hv : jwtVerify J (req.authorization.bind headerToken) now = some decoded)
    (hf : User.findById st decoded.id = none) :
    protectUser J st now req =
      { req := { req with user := none },
        sent := [⟨401, .error "Not authorized, user not found"⟩], nextCalls := 0,
        log := [.jwtVerify (req.authorization.bind headerToken),
                .userFindById decoded.id] } := by
  simp [protectUser, h, hv, hf]

theorem protectGovUser_not_found (J : Jwt) (st : Store) (now : Nat) (req : Request)
    (decoded : Claims) (h : hasBearer req.authorization = true)
    (hv : jwtVerify J (req.authorization.bind headerToken) now = some decoded)
    (hf : GovernmentUser.findById st decoded.id = none) :
    protectGovUser J st now req =
      { req := { req with user := none },
        sent := [⟨401, .error "Not authorized, government user not found"⟩], nextCalls := 0,
        log := [.jwtVerify (req.authorization.bind headerToken),
                .govFindById decoded.id] } := by
  simp [protectGovUser, h, hv, hf]

theorem protectUser_found (J : Jwt) (st : Store) (now : Nat) (req : Request)
    (decoded : Claims) (u : User) (h : hasBearer req.authorization = true)
    (hv : jwtVerify J (req.authorization.bind headerToken) now = some decoded)
    (hf : User.findById st decoded.id = some u) :
    protectUser J st now req =
      { req := { req with user := some (.citizen u.withoutOtp) }, sent := [], nextCalls := 1,
        log := [.jwtVerify (req.authorization.bind headerToken),
                .userFindById decoded.id] } := by
  simp [protectUser, h, hv, hf]

theorem protectGovUser_found (J : Jwt) (st : Store) (now : Nat) (req : Request)
    (decoded : Claims) (g : GovernmentUser) (h : hasBearer req.authorization = true)
    (hv : jwtVerify J (req.authorization.bind headerToken) now = some decoded)
    (hf : GovernmentUser.findById st decoded.id = some g) :
    protectGovUser J st now req =
      { req := { req with user := some (.official g.withoutPassword) }, sent := [],
        nextCalls := 1,
        log := [.jwtVerify (req.authorization.bind headerToken),
                .govFindById decoded.id] } := by
  simp [protectGovUser, h, hv, hf]

theorem hasBearer_eq_false_iff (authorization : Option String) :
    hasBearer authorization = false ↔
      ∀ h, authorization = some h → ¬ ("Bearer".toList <+: h.toList) := by
  cases authorization with
  | none => simp [hasBearer]
  | some h =>
    simp only [hasBearer, Option.some.injEq, forall_eq']
    by_cases he : h = ""
    · subst he
      simp
    · simp only [ne_eq, he, not_false_eq_true, decide_True, Bool.true_and]
      rw [← Bool.not_eq_true, List.isPrefixOf_iff_prefix]

theorem hasBearer_of_prefix (hdr : String) (h : "Bearer".toList <+: hdr.toList) :
    hasBearer (some hdr) = true := by
  cases hb : hasBearer (some hdr) with
  | true => rfl
  | false => exact absurd h ((hasBearer_eq_false_iff (some hdr)).1 hb hdr rfl)

theorem jwtVerify_expired (J : Jwt) (token : String) (claims : Claims) (now : Nat)
    (hd : J.decode token = some claims) (hexp : now > claims.exp) :
    jwtVerify J (some token) now = none := by
  simp [jwtVerify, hd, hexp]

theorem jwtVerify_missing (J : Jwt) (token : Option String) (now : Nat)
    (h : token = none ∨ token = some "") : jwtVerify J token now = none := by
  rcases h with h | h <;> simp [jwtVerify, h]


theorem verifyOtp_status_200 (J : Jwt) (st : Store) (body : VerifyOtpBody) (now : Nat) :
    (verifyOtp J st body now).res.status = 200 ↔
      body.phone.truthy = true ∧ body.otp.truthy = true ∧
      ∃ user, User.findOne st body.phone = some user ∧
        user.otp.strictNe body.otp = false := by
  by_cases hp : body.phone.truthy = true
  · by_cases ho : body.otp.truthy = true
    · cases hq : stringFilter st body.phone with
      | error e =>
        have hnone : User.findOne st body.phone = none := by simp [User.findOne, hq]
        simp [verifyOtp_rejected J st body now e hp ho hq, hnone]
      | ok test =>
        cases hf : User.findOne st body.phone with
        | none => simp [verifyOtp_not_found J st body now test hp ho hq hf, hp, ho]
        | some user =>
          cases hs : user.otp.strictNe body.otp with
          | false => simp [verifyOtp_match J st body now user hp ho hf hs, hp, ho, hs]
          | true => simp [verifyOtp_mismatch J st body now user hp ho hf hs, hp, ho, hs]
    · have ho2 : body.otp.truthy = false := by simpa using ho
      simp [verifyOtp_missing J st body now (Or.inr ho2), ho2]
  · have hp2 : body.phone.truthy = false := by simpa using hp
    simp [verifyOtp_missing J st body now (Or.inl hp2), hp2]

/-- C8 fails as stated: a request whose `phone` is a plain object is neither
missing a field nor the phone of any citizen, yet the answer is not 404: the
lookup is rejected with a cast error and the handler answers 500. -/
theorem object_phone_is_500 :
    (JsVal.obj "\x7b\"a\":1\x7d").truthy = true ∧ (JsVal.str "482913").truthy = true ∧
    (∀ u ∈ demoStore.users, u.phone ≠ .obj "\x7b\"a\":1\x7d") ∧
    (verifyOtp demoJwt demoStore ⟨.obj "\x7b\"a\":1\x7d", .str "482913"⟩ 1000).res.status
      = 500 ∧
    (verifyOtp demoJwt demoStore ⟨.obj "\x7b\"a\":1\x7d", .str "482913"⟩ 1000).res.status
      ≠ 404 := by
  decide

/-- C8 (as the code has it): `verifyOtp` answers 400 without touching the store
when phone or code is falsy; otherwise 500 when the store rejects the phone
value with a cast error; otherwise 404 when the lookup finds no citizen, which
for a string phone means that no citizen has that phone; otherwise 400 "Invalid
OTP" when the stored code differs under `!==` (a number never equals a stored
string); and it answers 200 exactly when none of these holds. -/
theorem verifyOtp_classification (J : Jwt) (st : Store) (body : VerifyOtpBody) (now : Nat) :
    ((body.phone.truthy = false ∨ body.otp.truthy = false) →
      (verifyOtp J st body now).res = ⟨400, .message "Phone and OTP are required"⟩ ∧
      (verifyOtp J st body now).log = [] ∧ (verifyOtp J st body now).store = st) ∧
    (body.phone.truthy = true → body.otp.truthy = true →
      ∀ e, stringFilter st body.phone = .error e →
      (verifyOtp J st body now).res = ⟨500, .error e⟩ ∧
      (verifyOtp J st body now).store = st) ∧
    (body.phone.truthy = true → body.otp.truthy = true →
      ∀ test, stringFilter st body.phone = .ok test →
      (∀ u ∈ st.users, test u.phone = false) →
      (verifyOtp J st body now).res = ⟨404, .message "User not found"⟩) ∧
    (∀ p : String, body.phone = .str p → p ≠ "" → body.otp.truthy = true →
      (∀ u ∈ st.users, u.phone ≠ .str p) →
      (verifyOtp J st body now).res = ⟨404, .message "User not found"⟩) ∧
    (body.phone.truthy = true → body.otp.truthy = true →
      ∀ user, User.findOne st body.phone = some user →
      user.otp.strictNe body.otp = true →
      (verifyOtp J st body now).res = ⟨400, .message "Invalid OTP"⟩) ∧
    ((verifyOtp J st body now).res.status = 200 ↔
      body.phone.truthy = true ∧ body.otp.truthy = true ∧
      ∃ user, User.findOne st body.phone = some user ∧
        user.otp.strictNe body.otp = false) ∧
    (∀ (text s : String) (user : User), body.phone.truthy = true →
      body.otp.truthy = true → body.otp = .num text →
      User.findOne st body.phone = some user → user.otp = .str s →
      (verifyOtp J st body now).res = ⟨400, .message "Invalid OTP"⟩) := by
  refine ⟨fun h => ?_, fun hp ho e hq => ?_, fun hp ho test hq hnone => ?_,
    fun p hbp hp ho hnone => ?_, fun hp ho user hf hne => ?_,
    verifyOtp_status_200 J st body now, fun text s user hp ho hotp hf hs => ?_⟩
  · rw [verifyOtp_missing J st body now h]
    exact ⟨rfl, rfl, rfl⟩
  · rw [verifyOtp_rejected J st body now e hp ho hq]
    exact ⟨rfl, rfl⟩
  · have hf : User.findOne st body.phone = none := by
      rw [userFindOne_of_filter st body.phone test hq, List.find?_eq_none]
      intro u hu
      simp [hnone u hu]
    rw [verifyOtp_not_found J st body now test hp ho hq hf]
  · have hpt : body.phone.truthy = true := by simp [hbp, JsVal.truthy, hp]
    have hq : stringFilter st body.phone = .ok fun stored => decide (stored = .str p) := by
      rw [hbp]; rfl
    have hf : User.findOne st body.phone = none := by
      rw [userFindOne_of_filter st body.phone _ hq, List.find?_eq_none]
      intro u hu
      simpa using hnone u hu
    rw [verifyOtp_not_found J st body now _ hpt ho hq hf]
  · rw [verifyOtp_mismatch J st body now user hp ho hf hne]
  · have hne : user.otp.strictNe body.otp = true := by
      simp [hotp, hs, JsVal.strictNe, JsVal.isObject]
    rw [verifyOtp_mismatch J st body now user hp ho hf hne]

theorem verifyOtp_classification_witness :
    (verifyOtp demoJwt demoStore ⟨.str "9998887776", .num "482913"⟩ 1000).res =
      ⟨400, .message "Invalid OTP"⟩ :=
  (verifyOtp_classification demoJwt demoStore
      ⟨.str "9998887776", .num "482913"⟩ 1000).2.2.2.2.2.2
    "482913" "482913" asha (by decide) (by decide) rfl (by decide) rfl

theorem verifyOtp_token_of_200 (J : Jwt) (st : Store) (body : VerifyOtpBody) (t : Nat)
    (h : (verifyOtp J st body t).res.status = 200) :
    ∃ user, User.findOne st body.phone = some user ∧
      (verifyOtp J st body t).res.body.token =
        some (J.encode { id := user._id, role := "user", iat := t, exp := t + 7 * 86400 }) ∧
      (verifyOtp J st body t).log =
        [.userFindOne body.phone, .userSave user._id,
         .jwtSign { id := user._id, role := "user", iat := t, exp := t + 7 * 86400 }] := by
  obtain ⟨hp, ho, user, hf, heq⟩ := (verifyOtp_status_200 J st body t).1 h
  rw [verifyOtp_match J st body t user hp ho hf heq]
  exact ⟨user, hf, rfl, rfl⟩

theorem govLogin_success (J : Jwt) (compare : String → String → Bool) (st : Store)
    (body : GovLoginBody) (t : Nat) (g : GovernmentUser) (password hash : String)
    (hf : GovernmentUser.findOne st body.govId = some g)
    (hp : body.password = .str password) (hh : g.password = .str hash)
    (hc : compare password hash = true) :
    govLogin J compare st body t =
      { res := ⟨200, .govLogin "✅ Login successful"
                  (J.encode { id := g._id, role := "government", iat := t, exp := t + 86400 })
                  "government"⟩,
        store := st,
        log := [.govFindOne body.govId, .bcryptCompare,
                .jwtSign { id := g._id, role := "government", iat := t,
                           exp := t + 86400 }] } := by
  obtain ⟨test, hq⟩ := govFindOne_filter st body.govId g hf
  simp [govLogin, hq, hf, hp, hh, hc, jwtSign, timespan_1d]

theorem govLogin_token_of_200 (J : Jwt) (compare : String → String → Bool) (st : Store)
    (body : GovLoginBody) (t : Nat)
    (h : (govLogin J compare st body t).res.status = 200) :
    ∃ g, GovernmentUser.findOne st body.govId = some g ∧
      (govLogin J compare st body t).res.body.token =
        some (J.encode { id := g._id, role := "government", iat := t, exp := t + 1 * 86400 }) ∧
      (govLogin J compare st body t).log =
        [.govFindOne body.govId, .bcryptCompare,
         .jwtSign { id := g._id, role := "government", iat := t, exp := t + 1 * 86400 }] := by
  unfold govLogin at h ⊢
  cases hq : stringFilter st body.govId with
  | error e => simp [hq] at h
  | ok test =>
    cases hf : GovernmentUser.findOne st body.govId with
    | none => simp [hq, hf] at h
    | some g =>
      refine ⟨g, rfl, ?_⟩
      simp only [hq, hf] at h ⊢
      split at h
      · rename_i password hash hp hh
        by_cases hc : compare password hash = true
        · simp [hc, jwtSign, timespan_1d, Body.token]
        · simp [hc] at h
      · simp at h

/-- C5: the token `verifyOtp` issues at time `t` is signed over a claim set with
expiry `t + 7 days`, the token `govLogin` issues at time `t` over one with expiry
`t + 1 day`, both handlers do issue a token when the credentials match, and
every token they issue has that expiry; and a bearer token whose claim set has
an expiry earlier than the current time is answered 401 "Not authorized, token
failed" by both guards, without a lookup and without calling `next`. -/
theorem token_lifetime (J : Jwt) (compare : String → String → Bool) (st : Store) (now : Nat) :
    (∀ (body : VerifyOtpBody) (t : Nat) (user : User),
      body.phone.truthy = true → body.otp.truthy = true →
      User.findOne st body.phone = some user → user.otp.strictNe body.otp = false →
      (verifyOtp J st body t).res.status = 200 ∧
      (verifyOtp J st body t).res.body.token =
        some (J.encode { id := user._id, role := "user", iat := t, exp := t + 7 * 86400 })) ∧
    (∀ (body : GovLoginBody) (t : Nat) (g : GovernmentUser) (password hash : String),
      GovernmentUser.findOne st body.govId = some g →
      body.password = .str password → g.password = .str hash →
      compare password hash = true →
      (govLogin J compare st body t).res.status = 200 ∧
      (govLogin J compare st body t).res.body.token =
        some (J.encode
          { id := g._id, role := "government", iat := t, exp := t + 1 * 86400 })) ∧
    (∀ body t, (verifyOtp J st body t).res.status = 200 →
      ∃ user, User.findOne st body.phone = some user ∧
        (verifyOtp J st body t).res.body.token =
          some (J.encode { id := user._id, role := "user", iat := t, exp := t + 7 * 86400 })) ∧
    (∀ body t, (govLogin J compare st body t).res.status = 200 →
      ∃ g, GovernmentUser.findOne st body.govId = some g ∧
        (govLogin J compare st body t).res.body.token =
          some (J.encode
            { id := g._id, role := "government", iat := t, exp := t + 1 * 86400 })) ∧
    (∀ (req : Request) (hdr token : String) (claims : Claims),
      req.authorization = some hdr → "Bearer".toList <+: hdr.toList →
      headerToken hdr = some token → J.decode token = some claims → now > claims.exp →
      protectUser J st now req =
        { req := req, sent := [⟨401, .error "Not authorized, token failed"⟩],
          nextCalls := 0, log := [.jwtVerify (some token)] } ∧
      protectGovUser J st now req =
        { req := req, sent := [⟨401, .error "Not authorized, token failed"⟩],
          nextCalls := 0, log := [.jwtVerify (some token)] }) := by
  refine ⟨fun body t user hp ho hf hs => ?_, fun body t g password hash hf hp hh hc => ?_,
    fun body t h => ?_, fun body t h => ?_,
    fun req hdr token claims hreq hpre htok hd hexp => ?_⟩
  · rw [verifyOtp_match J st body t user hp ho hf hs]
    exact ⟨rfl, rfl⟩
  · rw [govLogin_success J compare st body t g password hash hf hp hh hc]
    exact ⟨rfl, rfl⟩
  · obtain ⟨user, hf, htoken, _⟩ := verifyOtp_token_of_200 J st body t h
    exact ⟨user, hf, htoken⟩
  · obtain ⟨g, hf, htoken, _⟩ := govLogin_token_of_200 J compare st body t h
    exact ⟨g, hf, htoken⟩
  · have hb : hasBearer req.authorization = true := by
      rw [hreq]; exact hasBearer_of_prefix hdr hpre
    have ht : req.authorization.bind headerToken = some token := by simp [hreq, htok]
    have hv : jwtVerify J (req.authorization.bind headerToken) now = none := by
      rw [ht]; exact jwtVerify_expired J token claims now hd hexp
    rw [protectUser_token_failed J st now req hb hv,
      protectGovUser_token_failed J st now req hb hv, ht]
    exact ⟨rfl, rfl⟩

theorem token_lifetime_witness :
    ((verifyOtp demoJwt demoStore ⟨.str "9998887776", .str "482913"⟩ 1000).res.status = 200 ∧
      (verifyOtp demoJwt demoStore ⟨.str "9998887776", .str "482913"⟩ 1000).res.body.token =
        some (demoJwt.encode
          { id := "65f0a1", role := "user", iat := 1000, exp := 1000 + 7 * 86400 })) ∧
    ((govLogin demoJwt demoCompare demoStore ⟨.str "GOV001", .str "secret"⟩ 1000).res.status
        = 200 ∧
      (govLogin demoJwt demoCompare demoStore ⟨.str "GOV001", .str "secret"⟩
          1000).res.body.token =
        some (demoJwt.encode
          { id := "65f0b2", role := "government", iat := 1000, exp := 1000 + 1 * 86400 })) ∧
    protectUser demoJwt demoStore 605801 (Request.incoming (some "Bearer citizen-token")) =
      { req := Request.incoming (some "Bearer citizen-token"),
        sent := [⟨401, .error "Not authorized, token failed"⟩],
        nextCalls := 0, log := [.jwtVerify (some "citizen-token")] } :=
  ⟨(token_lifetime demoJwt demoCompare demoStore 605801).1
      ⟨.str "9998887776", .str "482913"⟩ 1000 asha (by decide) (by decide) (by decide)
      (by decide),
   (token_lifetime demoJwt demoCompare demoStore 605801).2.1
      ⟨.str "GOV001", .str "secret"⟩ 1000 officer "secret" "$2a$10$hash" (by decide) rfl rfl
      (by decide),
   ((token_lifetime demoJwt demoCompare demoStore 605801).2.2.2.2
      (Request.incoming (some "Bearer citizen-token")) "Bearer citizen-token" "citizen-token"
      { id := "65f0a1", role := "user", iat := 1000, exp := 605800 }
      rfl (by decide) (by decide) (by decide) (by decide)).1⟩

/-- C6 (as the code has it): a request whose Authorization header is absent,
empty or does not start with "Bearer" is answered 401 "Not authorized, no token
provided" by both guards, with no verification, no lookup and no call of `next`;
a header that starts with "Bearer" but carries no token after the first space is
answered 401 "Not authorized, token failed" after one failed verification, with
no lookup and no call of `next`. -/
theorem guards_without_token (J : Jwt) (st : Store) (now : Nat) (req : Request) :
    ((∀ hdr, req.authorization = some hdr → ¬ ("Bearer".toList <+: hdr.toList)) →
      protectUser J st now req =
        { req := req, sent := [⟨401, .error "Not authorized, no token provided"⟩],
          nextCalls := 0, log := [] } ∧
      protectGovUser J st now req =
        { req := req, sent := [⟨401, .error "Not authorized, no token provided"⟩],
          nextCalls := 0, log := [] }) ∧
    (∀ hdr, req.authorization = some hdr → "Bearer".toList <+: hdr.toList →
      (headerToken hdr = none ∨ headerToken hdr = some "") →
      protectUser J st now req =
        { req := req, sent := [⟨401, .error "Not authorized, token failed"⟩],
          nextCalls := 0, log := [.jwtVerify (headerToken hdr)] } ∧
      protectGovUser J st now req =
        { req := req, sent := [⟨401, .error "Not authorized, token failed"⟩],
          nextCalls := 0, log := [.jwtVerify (headerToken hdr)] }) := by
  refine ⟨fun h => ?_, fun hdr hreq hpre htok => ?_⟩
  · have hb := (hasBearer_eq_false_iff req.authorization).2 h
    exact ⟨protectUser_no_bearer J st now req hb, protectGovUser_no_bearer J st now req hb⟩
  · have hb : hasBearer req.authorization = true := by
      rw [hreq]; exact hasBearer_of_prefix hdr hpre
    have ht : req.authorization.bind headerToken = headerToken hdr := by simp [hreq]
    have hv : jwtVerify J (req.authorization.bind headerToken) now = none := by
      rw [ht]; exact jwtVerify_missing J _ now htok
    rw [protectUser_token_failed J st now req hb hv,
      protectGovUser_token_failed J st now req hb hv, ht]
    exact ⟨rfl, rfl⟩

theorem guards_without_token_witness :
    protectUser demoJwt demoStore 2000 (Request.incoming (some "Basic abc")) =
      { req := Request.incoming (some "Basic abc"),
        sent := [⟨401, .error "Not authorized, no token provided"⟩],
        nextCalls := 0, log := [] } ∧
    protectGovUser demoJwt demoStore 2000 (Request.incoming (some "Basic abc")) =
      { req := Request.incoming (some "Basic abc"),
        sent := [⟨401, .error "Not authorized, no token provided"⟩],
        nextCalls := 0, log := [] } :=
  (guards_without_token demoJwt demoStore 2000 (Request.incoming (some "Basic abc"))).1
    (fun hdr h => by
      have h2 : hdr = "Basic abc" := (Option.some.inj h).symm
      subst h2
      decide)

/-- C6 fails as stated: the header that is exactly "Bearer" passes the prefix
test, so both guards attempt a verification and answer "token failed", not
"no token provided". -/
theorem bare_bearer_is_token_failed :
    protectUser demoJwt demoStore 2000 (Request.incoming (some "Bearer")) =
      { req := Request.incoming (some "Bearer"),
        sent := [⟨401, .error "Not authorized, token failed"⟩],
        nextCalls := 0, log := [.jwtVerify none] } ∧
    protectGovUser demoJwt demoStore 2000 (Request.incoming (some "Bearer")) =
      { req := Request.incoming (some "Bearer"),
        sent := [⟨401, .error "Not authorized, token failed"⟩],
        nextCalls := 0, log := [.jwtVerify none] } ∧
    ¬ ((protectUser demoJwt demoStore 2000 (Request.incoming (some "Bearer"))).sent =
          [⟨401, .error "Not authorized, no token provided"⟩] ∧
        (protectUser demoJwt demoStore 2000 (Request.incoming (some "Bearer"))).log = []) := by
  decide

/-- C7: each guard ends in exactly one of two outcomes, a single 401 response
with `next` not called, or one call of `next` with no response; `next` is called
only after the token verified and the lookup by the decoded id found a
principal, which is attached without its `otp` (citizen guard) or `password`
(official guard); when the lookup finds nothing the outcome is the 401
"not found" response. -/
theorem guard_outcome (J : Jwt) (st : Store) (now : Nat) (req : Request) :
    (Xor' (∃ r, (protectUser J st now req).sent = [r] ∧ r.status = 401 ∧
              (protectUser J st now req).nextCalls = 0)
          ((protectUser J st now req).sent = [] ∧ (protectUser J st now req).nextCalls = 1) ∧
      ((protectUser J st now req).nextCalls ≠ 0 →
        ∃ decoded u, jwtVerify J (req.authorization.bind headerToken) now = some decoded ∧
          User.findById st decoded.id = some u ∧
          (protectUser J st now req).req.user = some (.citizen u.withoutOtp) ∧
          u.withoutOtp.otp = .undefined) ∧
      (∀ decoded, hasBearer req.authorization = true →
        jwtVerify J (req.authorization.bind headerToken) now = some decoded →
        User.findById st decoded.id = none →
        (protectUser J st now req).sent = [⟨401, .error "Not authorized, user not found"⟩] ∧
        (protectUser J st now req).nextCalls = 0)) ∧
    (Xor' (∃ r, (protectGovUser J st now req).sent = [r] ∧ r.status = 401 ∧
              (protectGovUser J st now req).nextCalls = 0)
          ((protectGovUser J st now req).sent = [] ∧
            (protectGovUser J st now req).nextCalls = 1) ∧
      ((protectGovUser J st now req).nextCalls ≠ 0 →
        ∃ decoded g, jwtVerify J (req.authorization.bind headerToken) now = some decoded ∧
          GovernmentUser.findById st decoded.id = some g ∧
          (protectGovUser J st now req).req.user = some (.official g.withoutPassword) ∧
          g.withoutPassword.password = .undefined) ∧
      (∀ decoded, hasBearer req.authorization = true →
        jwtVerify J (req.authorization.bind headerToken) now = some decoded →
        GovernmentUser.findById st decoded.id = none →
        (protectGovUser J st now req).sent =
          [⟨401, .error "Not authorized, government user not found"⟩] ∧
        (protectGovUser J st now req).nextCalls = 0)) := by
  constructor
  · cases hb : hasBearer req.authorization with
    | false =>
      rw [protectUser_no_bearer J st now req hb]
      simp [Xor']
    | true =>
      cases hv : jwtVerify J (req.authorization.bind headerToken) now with
      | none =>
        rw [protectUser_token_failed J st now req hb hv]
        simp [Xor']
      | some decoded =>
        cases hf : User.findById st decoded.id with
        | none =>
          rw [protectUser_not_found J st now req decoded hb hv hf]
          simp [Xor']
        | some u =>
          rw [protectUser_found J st now req decoded u hb hv hf]
          simp [Xor', hf, User.withoutOtp]
  · cases hb : hasBearer req.authorization with
    | false =>
      rw [protectGovUser_no_bearer J st now req hb]
      simp [Xor']
    | true =>
      cases hv : jwtVerify J (req.authorization.bind headerToken) now with
      | none =>
        rw [protectGovUser_token_failed J st now req hb hv]
        simp [Xor']
      | some decoded =>
        cases hf : GovernmentUser.findById st decoded.id with
        | none =>
          rw [protectGovUser_not_found J st now req decoded hb hv hf]
          simp [Xor']
        | some g =>
          rw [protectGovUser_found J st now req decoded g hb hv hf]
          simp [Xor', hf, GovernmentUser.withoutPassword]

/-- C3 fails as stated: neither guard reads the `role` claim.  In a store where
an official carries the same `_id` as a citizen, the citizen token (role
"user") passes `protectGovUser`, and where a citizen carries the `_id` of an
official, the official token (role "government") passes `protectUser`. -/
theorem role_not_checked :
    (jwtVerify demoJwt (some "citizen-token") 2000).map (·.role) = some "user" ∧
    (protectGovUser demoJwt clashStore 2000
        (Request.incoming (some "Bearer citizen-token"))).nextCalls = 1 ∧
    (protectGovUser demoJwt clashStore 2000
        (Request.incoming (some "Bearer citizen-token"))).sent = [] ∧
    (jwtVerify demoJwt (some "official-token") 2000).map (·.role) = some "government" ∧
    (protectUser demoJwt clashStore 2000
        (Request.incoming (some "Bearer official-token"))).nextCalls = 1 ∧
    (protectUser demoJwt clashStore 2000
        (Request.incoming (some "Bearer official-token"))).sent = [] := by
  decide

/-- C3 (as the code has it): for a verified, unexpired token of any role,
`protectGovUser` answers 401 without calling `next` exactly when no official
carries the id of the token, and `protectUser` answers 401 without calling
`next` exactly when no citizen carries it; the separation of the roles rests on
the two lookups alone. -/
theorem role_isolation_by_lookup (J : Jwt) (st : Store) (now : Nat) (req : Request)
    (decoded : Claims) (hb : hasBearer req.authorization = true)
    (hv : jwtVerify J (req.authorization.bind headerToken) now = some decoded) :
    (GovernmentUser.findById st decoded.id = none →
      (protectGovUser J st now req).sent =
        [⟨401, .error "Not authorized, government user not found"⟩] ∧
      (protectGovUser J st now req).nextCalls = 0) ∧
    (User.findById st decoded.id = none →
      (protectUser J st now req).sent = [⟨401, .error "Not authorized, user not found"⟩] ∧
      (protectUser J st now req).nextCalls = 0) ∧
    ((protectGovUser J st now req).nextCalls = 0 ↔
      GovernmentUser.findById st decoded.id = none) ∧
    ((protectUser J st now req).nextCalls = 0 ↔ User.findById st decoded.id = none) := by
  refine ⟨fun hf => ?_, fun hf => ?_, ?_, ?_⟩
  · rw [protectGovUser_not_found J st now req decoded hb hv hf]
    exact ⟨rfl, rfl⟩
  · rw [protectUser_not_found J st now req decoded hb hv hf]
    exact ⟨rfl, rfl⟩
  · cases hf : GovernmentUser.findById st decoded.id with
    | none => simp [protectGovUser_not_found J st now req decoded hb hv hf]
    | some g => simp [protectGovUser_found J st now req decoded g hb hv hf]
  · cases hf : User.findById st decoded.id with
    | none => simp [protectUser_not_found J st now req decoded hb hv hf]
    | some u => simp [protectUser_found J st now req decoded u hb hv hf]

theorem role_isolation_by_lookup_witness :
    (protectGovUser demoJwt demoStore 2000
        (Request.incoming (some "Bearer citizen-token"))).sent =
      [⟨401, .error "Not authorized, government user not found"⟩] ∧
    (protectGovUser demoJwt demoStore 2000
        (Request.incoming (some "Bearer citizen-token"))).nextCalls = 0 :=
  (role_isolation_by_lookup demoJwt demoStore 2000
    (Request.incoming (some "Bearer citizen-token"))
    { id := "65f0a1", role := "user", iat := 1000, exp := 605800 }
    (by decide) (by decide)).1 (by decide)

/-- C4, what the code does: for a request that arrives with a valid, unexpired
bearer token of an official present in the store, the guard attaches the
official to `req.user`, the handler reads `req.govUser`, and the route answers
404 "Government user not found" instead of the profile. -/
theorem govProfileRoute_answers_404 (J : Jwt) (st : Store) (now : Nat)
    (authorization : Option String) (decoded : Claims) (g : GovernmentUser)
    (hb : hasBearer authorization = true)
    (hv : jwtVerify J (authorization.bind headerToken) now = some decoded)
    (hf : GovernmentUser.findById st decoded.id = some g) :
    govProfileRoute J st now (Request.incoming authorization) =
      [⟨404, .error "Government user not found"⟩] := by
  unfold govProfileRoute
  have hb2 : hasBearer (Request.incoming authorization).authorization = true := hb
  have hv2 : jwtVerify J ((Request.incoming authorization).authorization.bind headerToken) now
      = some decoded := hv
  rw [protectGovUser_found J st now _ decoded g hb2 hv2 hf]
  simp [getGovProfile, Request.incoming]

theorem govProfileRoute_answers_404_witness :
    govProfileRoute demoJwt demoStore 2000 (Request.incoming (some "Bearer official-token")) =
      [⟨404, .error "Government user not found"⟩] :=
  govProfileRoute_answers_404 demoJwt demoStore 2000 (some "Bearer official-token")
    { id := "65f0b2", role := "government", iat := 1000, exp := 87400 } officer
    (by decide) (by decide) (by decide)


/-! ### The store under `save` -/

theorem stringFilter_congr (st1 st2 : Store) (h : st1.odm = st2.odm) (v : JsVal) :
    stringFilter st1 v = stringFilter st2 v := by
  cases v <;> simp [stringFilter, h]

theorem setOtp_map_id (id : ObjectId) (v : JsVal) (now : Nat) (users : List User) :
    (setOtp id v now users).map (·._id) = users.map (·._id) := by
  induction users with
  | nil => rfl
  | cons x xs ih =>
    unfold setOtp
    split
    · rfl
    · simp only [List.map_cons, ih]

theorem setOtp_of_find (test : JsVal → Bool) (v : JsVal) (now : Nat) (u : User)
    (users : List User) (hnd : (users.map (·._id)).Nodup)
    (hf : users.find? (fun x => test x.phone) = some u) :
    ∃ pre post, users = pre ++ u :: post ∧ (∀ x ∈ pre, test x.phone = false) ∧
      setOtp u._id v now users = pre ++ { u with otp := v, updatedAt := now } :: post := by
  induction users with
  | nil => simp at hf
  | cons x xs ih =>
    rw [List.map_cons, List.nodup_cons] at hnd
    by_cases hx : test x.phone = true
    · have hxu : x = u := by simpa [List.find?_cons, hx] using hf
      subst hxu
      exact ⟨[], xs, rfl, by simp, by simp [setOtp]⟩
    · have hx2 : test x.phone = false := by simpa using hx
      have hf2 : xs.find? (fun x => test x.phone) = some u := by
        simpa [List.find?_cons, hx2] using hf
      obtain ⟨pre, post, hxs, hpre, hset⟩ := ih hnd.2 hf2
      have hmem : u ∈ xs := List.mem_of_find?_eq_some hf2
      have hid : x._id ≠ u._id := by
        intro h
        apply hnd.1
        rw [h]
        exact List.mem_map_of_mem (·._id) hmem
      refine ⟨x :: pre, post, by simp [hxs], ?_, ?_⟩
      · intro y hy
        rcases List.mem_cons.1 hy with h | h
        · rw [h]; exact hx2
        · exact hpre y h
      · simp [setOtp, hid, hset]

theorem find_setOtp (test : JsVal → Bool) (v : JsVal) (now : Nat) (u : User)
    (users : List User) (hnd : (users.map (·._id)).Nodup)
    (hf : users.find? (fun x => test x.phone) = some u) :
    (setOtp u._id v now users).find? (fun x => test x.phone) =
      some { u with otp := v, updatedAt := now } := by
  obtain ⟨pre, post, hxs, hpre, hset⟩ := setOtp_of_find test v now u users hnd hf
  have hup : test u.phone = true := by simpa using List.find?_some hf
  rw [hset, List.find?_append]
  have hnone : pre.find? (fun x => test x.phone) = none := by
    rw [List.find?_eq_none]
    intro x hx
    simp [hpre x hx]
  simp [hnone, hup]

theorem saveOtp_wf (st : Store) (user : User) (v : JsVal) (now : Nat) (hwf : st.WF) :
    (User.saveOtp st user v now).WF := by
  unfold User.saveOtp
  split
  · exact hwf
  · exact ⟨by simpa [setOtp_map_id] using hwf.1, hwf.2⟩

theorem findOne_saveOtp (st : Store) (phone : JsVal) (user : User) (v : JsVal) (now : Nat)
    (hwf : st.WF) (hf : User.findOne st phone = some user) :
    ∃ stored, User.findOne (User.saveOtp st user v now) phone = some stored ∧
      stored.otp = v ∧
      stored = if user.otp = v then user else { user with otp := v, updatedAt := now } := by
  obtain ⟨test, hq, hfind⟩ := userFindOne_filter st phone user hf
  unfold User.saveOtp
  by_cases heq : user.otp = v
  · simp only [heq, if_true]
    exact ⟨user, hf, heq, rfl⟩
  · simp only [heq, if_false]
    refine ⟨{ user with otp := v, updatedAt := now }, ?_, rfl, rfl⟩
    have hq2 : stringFilter { st with users := setOtp user._id v now st.users } phone
        = .ok test := (stringFilter_congr _ st rfl phone).trans hq
    rw [userFindOne_of_filter _ phone test hq2]
    exact find_setOtp test v now user st.users hwf.1 hfind

/-! ### `requestOtp`, branch by branch -/

theorem requestOtp_missing (st : Store) (body : RequestOtpBody) (r : ℚ) (newId : ObjectId)
    (now : Nat) (h : body.phone.truthy = false) :
    requestOtp st body r newId now =
      { res := ⟨400, .message "Phone number is required"⟩, store := st, log := [] } := by
  simp [requestOtp, h]

theorem requestOtp_existing (st : Store) (body : RequestOtpBody) (r : ℚ) (newId : ObjectId)
    (now : Nat) (user : User) (h : body.phone.truthy = true)
    (hf : User.findOne st body.phone = some user) :
    requestOtp st body r newId now =
      { res := ⟨200, .message "OTP sent successfully"⟩,
        store := User.saveOtp st user (.str (otpCode r)) now,
        log := [.userFindOne body.phone, .userSave user._id,
                .consoleLog body.phone (otpCode r)] } := by
  obtain ⟨test, hq, _⟩ := userFindOne_filter st body.phone user hf
  simp [requestOtp, h, hq, hf]

theorem saveNew_ok (st st1 : Store) (user : User) (h : User.saveNew st user = .ok st1) :
    st1 = { st with users := st.users ++ [user] } ∧ user._id ∉ st.users.map (·._id) := by
  unfold User.saveNew at h
  split_ifs at h with h0 h1 h2 h3
  refine ⟨?_, ?_⟩
  · injection h with h
    exact h.symm
  · simpa using h1

theorem requestOtp_new (st : Store) (p : String) (name email : JsVal) (r : ℚ)
    (newId : ObjectId) (now : Nat) (hp : p ≠ "")
    (hf : User.findOne st (.str p) = none)
    (hok : (requestOtp st ⟨.str p, name, email⟩ r newId now).res.status = 200) :
    ∃ storedName storedEmail, castTrim st.odm name = .ok storedName ∧
      castString st.odm email = .ok storedEmail ∧
      requestOtp st ⟨.str p, name, email⟩ r newId now =
        { res := ⟨200, .message "OTP sent successfully"⟩,
          store := { st with users := st.users ++
            [{ _id := newId, name := storedName, phone := .str p, email := storedEmail,
               otp := .str (otpCode r), createdAt := now, updatedAt := now }] },
          log := [.userFindOne (.str p), .userSave newId,
                  .consoleLog (.str p) (otpCode r)] } ∧
      newId ∉ st.users.map (·._id) := by
  have hpt : (JsVal.str p).truthy = true := by simp [JsVal.truthy, hp]
  have hq : stringFilter st (.str p) = .ok fun stored => decide (stored = .str p) := rfl
  have hc : castString st.odm (.str p) = .ok (.str p) := rfl
  simp only [requestOtp, hpt, hq, hf, Bool.not_true, Bool.false_eq_true, if_false] at hok ⊢
  unfold User.create at hok ⊢
  simp only [hc] at hok ⊢
  cases hn : castTrim st.odm name with
  | error e => simp [hn] at hok
  | ok storedName =>
    cases he : castString st.odm email with
    | error e => simp [hn, he] at hok
    | ok storedEmail =>
      simp only [hn, he] at hok ⊢
      cases hs : User.saveNew st
          { _id := newId, name := storedName, phone := .str p, email := storedEmail,
            otp := .str (otpCode r), createdAt := now, updatedAt := now } with
      | error e => simp [hs] at hok
      | ok st1 =>
        obtain ⟨hst1, hid⟩ := saveNew_ok st st1 _ hs
        refine ⟨storedName, storedEmail, rfl, rfl, ?_, hid⟩
        simp only [hst1]

theorem requestOtp_stores_code (st : Store) (p : String) (name email : JsVal) (r : ℚ)
    (newId : ObjectId) (now : Nat) (hwf : st.WF) (hp : p ≠ "")
    (hok : (requestOtp st ⟨.str p, name, email⟩ r newId now).res.status = 200) :
    (requestOtp st ⟨.str p, name, email⟩ r newId now).store.WF ∧
    ∃ user, User.findOne (requestOtp st ⟨.str p, name, email⟩ r newId now).store (.str p)
        = some user ∧ user.otp = .str (otpCode r) := by
  have hpt : (JsVal.str p).truthy = true := by simp [JsVal.truthy, hp]
  cases hf : User.findOne st (.str p) with
  | none =>
    obtain ⟨storedName, storedEmail, _, _, heq, hid⟩ :=
      requestOtp_new st p name email r newId now hp hf hok
    rw [heq]
    refine ⟨⟨?_, hwf.2⟩,
      { _id := newId, name := storedName, phone := .str p, email := storedEmail,
        otp := .str (otpCode r), createdAt := now, updatedAt := now }, ?_, rfl⟩
    · simp only [List.map_append, List.map_cons, List.map_nil]
      rw [List.nodup_append]
      refine ⟨hwf.1, List.nodup_singleton _, ?_⟩
      intro a ha hb
      rw [List.mem_singleton] at hb
      exact hid (hb ▸ ha)
    · have hf0 : st.users.find? (fun u => decide (u.phone = JsVal.str p)) = none := hf
      show (st.users ++ _).find? (fun u => decide (u.phone = JsVal.str p)) = _
      simp only [List.find?_append, hf0, Option.none_or]
      simp
  | some user =>
    rw [requestOtp_existing st ⟨.str p, name, email⟩ r newId now user hpt hf]
    obtain ⟨stored, hfs, hotp, _⟩ :=
      findOne_saveOtp st (.str p) user (.str (otpCode r)) now hwf hf
    exact ⟨saveOtp_wf st user _ now hwf, stored, hfs, hotp⟩


/-! ### Rounding to binary64 -/

theorem roundHalfEven_floor_le (q : ℚ) : ⌊q⌋ ≤ roundHalfEven q := by
  unfold roundHalfEven
  split_ifs <;> omega

theorem roundHalfEven_le_floor_succ (q : ℚ) : roundHalfEven q ≤ ⌊q⌋ + 1 := by
  unfold roundHalfEven
  split_ifs <;> omega

theorem roundHalfEven_near (q : ℚ) :
    q - 1 / 2 ≤ (roundHalfEven q : ℚ) ∧ (roundHalfEven q : ℚ) ≤ q + 1 / 2 := by
  have h1 := Int.floor_le q
  have h2 := Int.lt_floor_add_one q
  unfold roundHalfEven
  split_ifs with a b c
  · constructor <;> linarith
  · push_cast
    constructor <;> linarith
  · constructor <;> linarith
  · push_cast
    constructor <;> linarith

theorem roundHalfEven_intCast (n : Int) : roundHalfEven (n : ℚ) = n := by
  unfold roundHalfEven
  simp

theorem le_roundHalfEven (n : Int) (q : ℚ) (h : (n : ℚ) ≤ q) : n ≤ roundHalfEven q :=
  le_trans (Int.le_floor.2 h) (roundHalfEven_floor_le q)

theorem roundHalfEven_le (n : Int) (q : ℚ) (h : q < (n : ℚ)) : roundHalfEven q ≤ n := by
  have h1 : ⌊q⌋ < n := Int.floor_lt.2 h
  have h2 := roundHalfEven_le_floor_succ q
  omega

theorem log_two_eq (x : ℚ) (e : ℤ) (h1 : (2 : ℚ) ^ e ≤ x) (h2 : x < (2 : ℚ) ^ (e + 1)) :
    Int.log 2 x = e := by
  have hx : 0 < x := lt_of_lt_of_le (by positivity) h1
  have a : e ≤ Int.log 2 x := by
    rw [← Int.zpow_le_iff_le_log (by norm_num) hx]
    simpa using h1
  have b : Int.log 2 x < e + 1 := by
    rw [← Int.lt_zpow_iff_log_lt (by norm_num) hx]
    simpa using h2
  omega

theorem roundDouble_of_binade (x : ℚ) (e : ℤ) (h1 : (2 : ℚ) ^ e ≤ x)
    (h2 : x < (2 : ℚ) ^ (e + 1)) :
    roundDouble x = (roundHalfEven (x / 2 ^ (e - 52)) : ℚ) * 2 ^ (e - 52) := by
  have hx : 0 < x := lt_of_lt_of_le (by positivity) h1
  unfold roundDouble
  rw [if_neg (ne_of_gt hx), abs_of_pos hx, log_two_eq x e h1 h2]

theorem binade_exists (x : ℚ) (hx : 0 < x) :
    (2 : ℚ) ^ Int.log 2 x ≤ x ∧ x < (2 : ℚ) ^ (Int.log 2 x + 1) := by
  have a := Int.zpow_log_le_self (b := 2) (r := x) (by norm_num) hx
  have b := Int.lt_zpow_succ_log_self (b := 2) (by norm_num) x
  constructor
  · simpa using a
  · simpa using b

theorem two_zpow_split (e : ℤ) : (2 : ℚ) ^ e = 2 ^ (52 : ℤ) * 2 ^ (e - 52) := by
  rw [← zpow_add₀ (by norm_num : (2 : ℚ) ≠ 0)]
  congr 1
  ring

theorem two_zpow_succ_split (e : ℤ) : (2 : ℚ) ^ (e + 1) = 2 ^ (53 : ℤ) * 2 ^ (e - 52) := by
  rw [← zpow_add₀ (by norm_num : (2 : ℚ) ≠ 0)]
  congr 1
  ring

theorem roundDouble_of_grid (x : ℚ) (e : ℤ) (n : ℤ) (h1 : (2 : ℚ) ^ e ≤ x)
    (h2 : x < (2 : ℚ) ^ (e + 1)) (hn : x = (n : ℚ) * 2 ^ (e - 52)) : roundDouble x = x := by
  have hu : (0 : ℚ) < 2 ^ (e - 52) := by positivity
  rw [roundDouble_of_binade x e h1 h2]
  have : x / 2 ^ (e - 52) = (n : ℚ) := by
    rw [hn]; field_simp
  rw [this, roundHalfEven_intCast, ← hn]

theorem roundDouble_grid (x : ℚ) (e : ℤ) (h1 : (2 : ℚ) ^ e ≤ x) (h2 : x < (2 : ℚ) ^ (e + 1)) :
    ∃ m : ℤ, roundDouble x = (m : ℚ) * 2 ^ (e - 52) ∧ 2 ^ 52 ≤ m ∧ m ≤ 2 ^ 53 := by
  have hu : (0 : ℚ) < 2 ^ (e - 52) := by positivity
  refine ⟨roundHalfEven (x / 2 ^ (e - 52)), roundDouble_of_binade x e h1 h2, ?_, ?_⟩
  · apply le_roundHalfEven
    rw [le_div_iff₀ hu]
    have := two_zpow_split e
    rw [this] at h1
    norm_num at h1 ⊢
    exact h1
  · apply roundHalfEven_le
    rw [div_lt_iff₀ hu]
    have := two_zpow_succ_split e
    rw [this] at h2
    norm_num at h2 ⊢
    exact h2

theorem roundDouble_error (x : ℚ) (hx : 0 < x) :
    x - x / 2 ^ 53 ≤ roundDouble x ∧ roundDouble x ≤ x + x / 2 ^ 53 := by
  obtain ⟨h1, h2⟩ := binade_exists x hx
  have hu : (0 : ℚ) < 2 ^ (Int.log 2 x - 52) := by positivity
  rw [roundDouble_of_binade x _ h1 h2]
  obtain ⟨a, b⟩ := roundHalfEven_near (x / 2 ^ (Int.log 2 x - 52))
  have hs := two_zpow_split (Int.log 2 x)
  rw [hs] at h1
  set u : ℚ := 2 ^ (Int.log 2 x - 52) with hudef
  have hxu : x / u * u = x := by field_simp
  have a2 : (x / u - 1 / 2) * u ≤ roundHalfEven (x / u) * u :=
    mul_le_mul_of_nonneg_right a hu.le
  have b2 : roundHalfEven (x / u) * u ≤ (x / u + 1 / 2) * u :=
    mul_le_mul_of_nonneg_right b hu.le
  have h52 : (2 : ℚ) ^ (52 : ℤ) = 4503599627370496 := by norm_num
  rw [h52] at h1
  have e1 : (x / u - 1 / 2) * u = x - u / 2 := by rw [sub_mul, hxu]; ring
  have e2 : (x / u + 1 / 2) * u = x + u / 2 := by rw [add_mul, hxu]; ring
  rw [e1] at a2
  rw [e2] at b2
  constructor
  · have : x / 2 ^ 53 ≥ u / 2 := by
      norm_num
      linarith
    linarith
  · have : x / 2 ^ 53 ≥ u / 2 := by
      norm_num
      linarith
    linarith

theorem int_le_roundDouble (N : ℤ) (y : ℚ) (hy : 0 < y) (hN : (N : ℚ) ≤ y)
    (hlt : y < 2 ^ 53) : (N : ℚ) ≤ roundDouble y := by
  obtain ⟨h1, h2⟩ := binade_exists y hy
  have he : Int.log 2 y ≤ 52 := by
    have : Int.log 2 y < 53 := by
      rw [← Int.lt_zpow_iff_log_lt (by norm_num) hy]
      norm_num at hlt ⊢
      exact hlt
    omega
  have hu : (0 : ℚ) < 2 ^ (Int.log 2 y - 52) := by positivity
  rw [roundDouble_of_binade y _ h1 h2]
  obtain ⟨k, hk⟩ : ∃ k : ℕ, Int.log 2 y - 52 = -(k : ℤ) := ⟨(52 - Int.log 2 y).toNat, by omega⟩
  rw [hk] at hu ⊢
  have hinv : (2 : ℚ) ^ (-(k : ℤ)) * 2 ^ k = 1 := by
    rw [zpow_neg, zpow_natCast]
    field_simp
  have hq : ((N * 2 ^ k : ℤ) : ℚ) ≤ y / 2 ^ (-(k : ℤ)) := by
    rw [le_div_iff₀ hu]
    push_cast
    rw [mul_assoc, mul_comm ((2 : ℚ) ^ k), hinv, mul_one]
    exact hN
  have := le_roundHalfEven _ _ hq
  have h3 : ((N * 2 ^ k : ℤ) : ℚ) * 2 ^ (-(k : ℤ)) ≤
      (roundHalfEven (y / 2 ^ (-(k : ℤ))) : ℚ) * 2 ^ (-(k : ℤ)) :=
    mul_le_mul_of_nonneg_right (by exact_mod_cast this) hu.le
  have h4 : ((N * 2 ^ k : ℤ) : ℚ) * 2 ^ (-(k : ℤ)) = N := by
    push_cast
    rw [mul_assoc, mul_comm ((2 : ℚ) ^ k), hinv, mul_one]
  rw [h4] at h3
  exact h3

theorem roundDouble_zero : roundDouble 0 = 0 := by
  simp [roundDouble]

theorem roundDouble_idem (x : ℚ) (hx : 0 < x) : roundDouble (roundDouble x) = roundDouble x := by
  obtain ⟨h1, h2⟩ := binade_exists x hx
  obtain ⟨m, hm, hlo, hhi⟩ := roundDouble_grid x _ h1 h2
  set e := Int.log 2 x with he
  have hu : (0 : ℚ) < 2 ^ (e - 52) := by positivity
  have hloq : (2 : ℚ) ^ (52 : ℤ) ≤ (m : ℚ) := by
    have : ((2 ^ 52 : ℤ) : ℚ) ≤ (m : ℚ) := by exact_mod_cast hlo
    norm_num at this ⊢
    exact this
  by_cases hlt : m < 2 ^ 53
  · have hltq : (m : ℚ) < (2 : ℚ) ^ (53 : ℤ) := by
      have : (m : ℚ) < ((2 ^ 53 : ℤ) : ℚ) := by exact_mod_cast hlt
      norm_num at this ⊢
      exact this
    apply roundDouble_of_grid (roundDouble x) e m
    · rw [hm, two_zpow_split e]
      exact mul_le_mul_of_nonneg_right hloq hu.le
    · rw [hm, two_zpow_succ_split e]
      exact mul_lt_mul_of_pos_right hltq hu
    · exact hm
  · have hmeq : m = 2 ^ 53 := le_antisymm hhi (not_lt.1 hlt)
    have hval : roundDouble x = (2 : ℚ) ^ (e + 1) := by
      rw [hm, two_zpow_succ_split e, hmeq]
      norm_num
    apply roundDouble_of_grid (roundDouble x) (e + 1) (2 ^ 52)
    · rw [hval]
    · rw [hval]
      exact zpow_lt_zpow_right₀ (by norm_num) (by omega)
    · rw [hval, two_zpow_split (e + 1)]
      norm_num

theorem double_lt_one (r : ℚ) (hd : roundDouble r = r) (h1 : r < 1) : r ≤ 1 - 1 / 2 ^ 53 := by
  by_cases hhalf : r < 1 / 2
  · have : (1 : ℚ) / 2 ≤ 1 - 1 / 2 ^ 53 := by norm_num
    linarith
  · have hlo : (2 : ℚ) ^ (-1 : ℤ) ≤ r := by
      norm_num
      linarith
    have hhi : r < (2 : ℚ) ^ ((-1 : ℤ) + 1) := by
      norm_num
      exact h1
    obtain ⟨m, hm, _, _⟩ := roundDouble_grid r (-1) hlo hhi
    rw [hd] at hm
    have hu : (2 : ℚ) ^ ((-1 : ℤ) - 52) = 1 / 2 ^ 53 := by norm_num
    rw [hu] at hm
    have hmlt : (m : ℚ) < 2 ^ 53 := by
      rw [hm] at h1
      have : (m : ℚ) * (1 / 2 ^ 53) * 2 ^ 53 < 1 * 2 ^ 53 :=
        mul_lt_mul_of_pos_right h1 (by positivity)
      norm_num at this ⊢
      linarith
    have hmlt2 : m < 2 ^ 53 := by exact_mod_cast hmlt
    have hmle : (m : ℚ) ≤ 2 ^ 53 - 1 := by
      have : m ≤ 2 ^ 53 - 1 := by omega
      exact_mod_cast this
    rw [hm]
    have : (m : ℚ) * (1 / 2 ^ 53) ≤ (2 ^ 53 - 1) * (1 / 2 ^ 53) :=
      mul_le_mul_of_nonneg_right hmle (by positivity)
    norm_num at this ⊢
    linarith

theorem otpNumber_bounds (r : ℚ) (hd : IsDouble r) (h0 : 0 ≤ r) (h1 : r < 1) :
    100000 ≤ otpNumber r ∧ otpNumber r ≤ 999999 := by
  have hr := double_lt_one r hd h1
  have hxhi : r * 900000 ≤ 900000 - 900000 / 2 ^ 53 := by
    have : r * 900000 ≤ (1 - 1 / 2 ^ 53) * 900000 :=
      mul_le_mul_of_nonneg_right hr (by norm_num)
    linarith
  have hx0 : 0 ≤ r * 900000 := by positivity
  -- the rounded product
  have hp : 0 ≤ roundDouble (r * 900000) ∧ roundDouble (r * 900000) < 900000 ∧
      (roundDouble (r * 900000) < 600000 ∨
        ∃ m : ℤ, roundDouble (r * 900000) = (m : ℚ) / 2 ^ 33) := by
    rcases eq_or_lt_of_le hx0 with hz | hpos
    · rw [← hz, roundDouble_zero]
      exact ⟨le_refl _, by norm_num, Or.inl (by norm_num)⟩
    · obtain ⟨elo, ehi⟩ := roundDouble_error _ hpos
      refine ⟨?_, ?_, ?_⟩
      · have : r * 900000 / 2 ^ 53 ≤ r * 900000 := by
          apply div_le_self hpos.le
          norm_num
        linarith
      · have : r * 900000 / 2 ^ 53 ≤ 900000 / 2 ^ 53 - 900000 / 2 ^ 53 / 2 ^ 53 := by
          have := div_le_div_of_nonneg_right hxhi (by positivity : (0 : ℚ) ≤ 2 ^ 53)
          linarith [sub_div (900000 : ℚ) (900000 / 2 ^ 53) (2 ^ 53)]
        have hpos2 : (0 : ℚ) < 900000 / 2 ^ 53 / 2 ^ 53 := by positivity
        linarith
      · by_cases hsmall : r * 900000 < 2 ^ 19
        · left
          have : r * 900000 / 2 ^ 53 ≤ 1 := by
            rw [div_le_one (by positivity)]
            have : (2 : ℚ) ^ 19 ≤ 2 ^ 53 := by norm_num
            linarith
          norm_num at hsmall
          linarith
        · right
          have hlo : (2 : ℚ) ^ (19 : ℤ) ≤ r * 900000 := by
            norm_num at hsmall ⊢
            exact hsmall
          have hhi : r * 900000 < (2 : ℚ) ^ ((19 : ℤ) + 1) := by
            norm_num
            have : (0 : ℚ) < 900000 / 2 ^ 53 := by positivity
            linarith
          obtain ⟨m, hm, _, _⟩ := roundDouble_grid _ 19 hlo hhi
          refine ⟨m, ?_⟩
          rw [hm]
          norm_num
          ring
  obtain ⟨hp0, hp1, hp2⟩ := hp
  set p := roundDouble (r * 900000) with hpdef
  have hy0 : (0 : ℚ) < 100000 + p := by linarith
  unfold otpNumber
  rw [← hpdef]
  constructor
  · rw [Int.le_floor]
    have := int_le_roundDouble 100000 (100000 + p) hy0 (by push_cast; linarith)
      (by norm_num; linarith)
    exact_mod_cast this
  · have hlt : roundDouble (100000 + p) < 1000000 := by
      rcases hp2 with hsmall | ⟨m, hm⟩
      · obtain ⟨_, ehi⟩ := roundDouble_error _ hy0
        have : (100000 + p) / 2 ^ 53 ≤ 1 := by
          rw [div_le_one (by positivity)]
          norm_num
          linarith
        linarith
      · by_cases hsmall : p < 600000
        · obtain ⟨_, ehi⟩ := roundDouble_error _ hy0
          have : (100000 + p) / 2 ^ 53 ≤ 1 := by
            rw [div_le_one (by positivity)]
            norm_num
            linarith
          linarith
        · have hfix : roundDouble (100000 + p) = 100000 + p := by
            apply roundDouble_of_grid (100000 + p) 19 (100000 * 2 ^ 33 + m)
            · norm_num
              linarith
            · norm_num
              linarith
            · rw [hm]
              push_cast
              norm_num
              ring
          rw [hfix]
          linarith
    have : ⌊roundDouble (100000 + p)⌋ < 1000000 := by
      rw [Int.floor_lt]
      exact_mod_cast hlt
    omega


theorem otpNumber_surj (n : Int) (h1 : 100000 ≤ n) (h2 : n ≤ 999999) :
    ∃ r : ℚ, IsDouble r ∧ 0 ≤ r ∧ r < 1 ∧ otpNumber r = n := by
  have hn1 : (100000 : ℚ) ≤ n := by exact_mod_cast h1
  have hn2 : (n : ℚ) ≤ 999999 := by exact_mod_cast h2
  set x0 : ℚ := ((n : ℚ) - 100000 + 1 / 2) / 900000 with hx0
  have hx0pos : 0 < x0 := by
    rw [hx0]
    apply div_pos <;> linarith
  have hx0le : x0 ≤ 1799999 / 1800000 := by
    rw [hx0, div_le_iff₀ (by norm_num)]
    linarith
  have hx0mul : x0 * 900000 = (n : ℚ) - 100000 + 1 / 2 := by
    rw [hx0]
    exact div_mul_cancel₀ _ (by norm_num)
  obtain ⟨rlo, rhi⟩ := roundDouble_error x0 hx0pos
  have hsmall0 : x0 / 2 ^ 53 ≤ 1 / 2 ^ 53 := by
    apply div_le_div_of_nonneg_right _ (by positivity)
    linarith
  have heps : (1 : ℚ) / 2 ^ 53 ≤ 1 / 9000000000000000 := by norm_num
  set r := roundDouble x0 with hr
  have hrpos : 0 < r := by
    have : x0 / 2 ^ 53 ≤ x0 / 2 := by
      apply div_le_div_of_nonneg_left hx0pos.le (by norm_num) (by norm_num)
    linarith
  have hrlt : r < 1 := by linarith
  refine ⟨r, roundDouble_idem x0 hx0pos, hrpos.le, hrlt, ?_⟩
  -- the product
  have hxpos : 0 < r * 900000 := by positivity
  have hxlo : (n : ℚ) - 100000 + 1 / 2 - 900000 / 9000000000000000 ≤ r * 900000 := by
    nlinarith
  have hxhi : r * 900000 ≤ (n : ℚ) - 100000 + 1 / 2 + 900000 / 9000000000000000 := by
    nlinarith
  obtain ⟨plo, phi⟩ := roundDouble_error _ hxpos
  have hxe : r * 900000 / 2 ^ 53 ≤ 900000 / 9000000000000000 := by
    have : r * 900000 / 2 ^ 53 ≤ 900000 / 2 ^ 53 := by
      apply div_le_div_of_nonneg_right _ (by positivity)
      nlinarith
    have : (900000 : ℚ) / 2 ^ 53 ≤ 900000 / 9000000000000000 := by norm_num
    linarith
  set p := roundDouble (r * 900000) with hp
  have hy0 : (0 : ℚ) < 100000 + p := by linarith
  obtain ⟨ylo, yhi⟩ := roundDouble_error _ hy0
  have hye : (100000 + p) / 2 ^ 53 ≤ 1000001 / 9000000000000000 := by
    have : (100000 + p) / 2 ^ 53 ≤ 1000001 / 2 ^ 53 := by
      apply div_le_div_of_nonneg_right _ (by positivity)
      linarith
    have : (1000001 : ℚ) / 2 ^ 53 ≤ 1000001 / 9000000000000000 := by norm_num
    linarith
  unfold otpNumber
  rw [← hp, Int.floor_eq_iff]
  constructor
  · linarith
  · linarith

/-! ### The generated code -/

theorem toDigitsCore_succ (f n : Nat) (ds : List Char) :
    Nat.toDigitsCore 10 (f + 1) n ds =
      if n / 10 = 0 then Nat.digitChar (n % 10) :: ds
      else Nat.toDigitsCore 10 f (n / 10) (Nat.digitChar (n % 10) :: ds) := rfl

theorem toDigits_six (m : Nat) (h1 : 100000 ≤ m) (h2 : m ≤ 999999) :
    Nat.toDigits 10 m =
      [Nat.digitChar (m / 10 / 10 / 10 / 10 / 10 % 10), Nat.digitChar (m / 10 / 10 / 10 / 10 % 10),
       Nat.digitChar (m / 10 / 10 / 10 % 10), Nat.digitChar (m / 10 / 10 % 10),
       Nat.digitChar (m / 10 % 10), Nat.digitChar (m % 10)] := by
  obtain ⟨f, hf⟩ : ∃ f, m + 1 = f + 6 := ⟨m - 5, by omega⟩
  rw [Nat.toDigits, hf]
  rw [toDigitsCore_succ, if_neg (by omega), toDigitsCore_succ, if_neg (by omega),
    toDigitsCore_succ, if_neg (by omega), toDigitsCore_succ, if_neg (by omega),
    toDigitsCore_succ, if_neg (by omega), toDigitsCore_succ, if_pos (by omega)]

theorem digitChar_isDigit (d : Nat) (h : d < 10) : (Nat.digitChar d).isDigit = true := by
  interval_cases d <;> decide

theorem digitChar_ne_zero (d : Nat) (h0 : 0 < d) (h : d < 10) : Nat.digitChar d ≠ '0' := by
  interval_cases d <;> decide

theorem toString_int_natCast (m : Nat) : toString (m : Int) = (Nat.toDigits 10 m).asString := rfl

theorem toDigits_ne_nil (m : Nat) : Nat.toDigits 10 m ≠ [] := by
  intro h
  have hl : (Nat.toDigits 10 m).length = 0 := by rw [h]; rfl
  rw [Nat.toDigits, toDigitsCore_succ] at hl
  split_ifs at hl
  · simp at hl
  · rw [Nat.toDigitsCore_lens_eq] at hl
    omega

theorem toString_int_ne_empty (n : Int) : toString n ≠ "" := by
  cases n with
  | ofNat m =>
    intro h
    have h2 : (Nat.toDigits 10 m).asString = "" := h
    exact toDigits_ne_nil m (congrArg String.data h2)
  | negSucc m =>
    intro h
    have h2 : "-" ++ toString (m + 1) = "" := h
    have h3 := congrArg String.length h2
    rw [String.length_append] at h3
    have h4 : "-".length = 1 := rfl
    have h5 : "".length = 0 := rfl
    omega

theorem otpNumberExact_bounds (r : ℚ) (h0 : 0 ≤ r) (h1 : r < 1) :
    100000 ≤ otpNumberExact r ∧ otpNumberExact r ≤ 999999 := by
  unfold otpNumberExact
  constructor
  · rw [Int.le_floor]
    push_cast
    nlinarith
  · have : ⌊(100000 : ℚ) + r * 900000⌋ < 1000000 := by
      rw [Int.floor_lt]
      push_cast
      nlinarith
    omega

theorem otpNumberExact_surj (n : Int) (h1 : 100000 ≤ n) (h2 : n ≤ 999999) :
    ∃ r : ℚ, 0 ≤ r ∧ r < 1 ∧ otpNumberExact r = n := by
  refine ⟨((n : ℚ) - 100000) / 900000, ?_, ?_, ?_⟩
  · have : (100000 : ℚ) ≤ n := by exact_mod_cast h1
    apply div_nonneg <;> linarith
  · have : (n : ℚ) ≤ 999999 := by exact_mod_cast h2
    rw [div_lt_one (by norm_num)]
    linarith
  · unfold otpNumberExact
    have : (100000 : ℚ) + ((n : ℚ) - 100000) / 900000 * 900000 = n := by
      field_simp
    rw [this]
    exact Int.floor_intCast n

theorem otpCode_shape (r : ℚ) (hd : IsDouble r) (h0 : 0 ≤ r) (h1 : r < 1) :
    (otpCode r).length = 6 ∧ (otpCode r).toList.head? ≠ some '0' ∧
    ∀ c ∈ (otpCode r).toList, c.isDigit = true := by
  obtain ⟨hlo, hhi⟩ := otpNumber_bounds r hd h0 h1
  obtain ⟨m, hm⟩ := Int.eq_ofNat_of_zero_le (le_trans (by norm_num) hlo)
  have hm1 : 100000 ≤ m := by omega
  have hm2 : m ≤ 999999 := by omega
  have hcode : otpCode r = (Nat.toDigits 10 m).asString := by
    rw [otpCode, hm]
    exact toString_int_natCast m
  rw [hcode, toDigits_six m hm1 hm2]
  refine ⟨rfl, ?_, ?_⟩
  · intro h
    have h2 : some (Nat.digitChar (m / 10 / 10 / 10 / 10 / 10 % 10)) = some '0' := h
    exact digitChar_ne_zero (m / 10 / 10 / 10 / 10 / 10 % 10) (by omega) (by omega)
      (Option.some.inj h2)
  · intro c hc
    have hc2 : c ∈ [Nat.digitChar (m / 10 / 10 / 10 / 10 / 10 % 10),
        Nat.digitChar (m / 10 / 10 / 10 / 10 % 10), Nat.digitChar (m / 10 / 10 / 10 % 10),
        Nat.digitChar (m / 10 / 10 % 10), Nat.digitChar (m / 10 % 10),
        Nat.digitChar (m % 10)] := hc
    simp only [List.mem_cons, List.mem_singleton, List.not_mem_nil, or_false] at hc2
    rcases hc2 with h | h | h | h | h | h
    all_goals
      rw [h]
      exact digitChar_isDigit _ (Nat.mod_lt _ (by norm_num))

theorem otpCode_truthy (r : ℚ) : (JsVal.str (otpCode r)).truthy = true := by
  have hne : otpCode r ≠ "" := toString_int_ne_empty _
  simp [JsVal.truthy, hne]

theorem roundDouble_fixed (x : ℚ) (e n : ℤ) (h1 : (2 : ℚ) ^ e ≤ x)
    (h2 : x < (2 : ℚ) ^ (e + 1)) (hn : x = (n : ℚ) * 2 ^ (e - 52)) : IsDouble x :=
  roundDouble_of_grid x e n h1 h2 hn

theorem isDouble_half : IsDouble (1 / 2) := by
  apply roundDouble_fixed (1 / 2) (-1) (2 ^ 52) <;> norm_num

theorem otpNumber_half : otpNumber (1 / 2) = 550000 := by
  have hp : roundDouble (1 / 2 * 900000) = 450000 := by
    have : (1 / 2 * 900000 : ℚ) = 450000 := by norm_num
    rw [this]
    apply roundDouble_of_grid 450000 18 (450000 * 2 ^ 34) <;> norm_num
  have hs : roundDouble (100000 + 450000) = 550000 := by
    have : (100000 + 450000 : ℚ) = 550000 := by norm_num
    rw [this]
    apply roundDouble_of_grid 550000 19 (550000 * 2 ^ 33) <;> norm_num
  unfold otpNumber
  rw [hp, hs]
  exact Int.floor_intCast 550000

theorem otpCode_half : otpCode (1 / 2) = "550000" := by
  rw [otpCode, otpNumber_half]
  decide

/-- C9: for every binary64 draw `0 ≤ r < 1` the number
`Math.floor(100000 + r * 900000)`, computed in binary64 as the code does, lies
in `[100000, 999999]`, and the code is its decimal string, of exactly six
digits, not starting with `0`; every integer of that range is the code of some
binary64 draw; the same bounds and the same surjectivity hold for the expression
read over the exact rationals; and the code is what `requestOtp` stores. -/
theorem otp_range :
    (∀ r : ℚ, IsDouble r → 0 ≤ r → r < 1 →
      100000 ≤ otpNumber r ∧ otpNumber r ≤ 999999 ∧
      otpCode r = toString (otpNumber r) ∧
      (otpCode r).length = 6 ∧ (otpCode r).toList.head? ≠ some '0' ∧
      ∀ c ∈ (otpCode r).toList, c.isDigit = true) ∧
    (∀ n : Int, 100000 ≤ n → n ≤ 999999 →
      ∃ r : ℚ, IsDouble r ∧ 0 ≤ r ∧ r < 1 ∧ otpNumber r = n ∧ otpCode r = toString n) ∧
    (∀ r : ℚ, 0 ≤ r → r < 1 → 100000 ≤ otpNumberExact r ∧ otpNumberExact r ≤ 999999) ∧
    (∀ n : Int, 100000 ≤ n → n ≤ 999999 → ∃ r : ℚ, 0 ≤ r ∧ r < 1 ∧ otpNumberExact r = n) ∧
    (∀ (st : Store) (p : String) (name email : JsVal) (r : ℚ) (newId : ObjectId) (now : Nat),
      st.WF → p ≠ "" → (requestOtp st ⟨.str p, name, email⟩ r newId now).res.status = 200 →
      ∃ user, User.findOne (requestOtp st ⟨.str p, name, email⟩ r newId now).store (.str p)
          = some user ∧ user.otp = .str (otpCode r)) := by
  refine ⟨fun r hd h0 h1 => ?_, fun n h1 h2 => ?_, otpNumberExact_bounds,
    otpNumberExact_surj, fun st p name email r newId now hwf hp hok => ?_⟩
  · obtain ⟨hlo, hhi⟩ := otpNumber_bounds r hd h0 h1
    exact ⟨hlo, hhi, rfl, otpCode_shape r hd h0 h1⟩
  · obtain ⟨r, hd, h0, hlt, hn⟩ := otpNumber_surj n h1 h2
    exact ⟨r, hd, h0, hlt, hn, by rw [otpCode, hn]⟩
  · exact (requestOtp_stores_code st p name email r newId now hwf hp hok).2

theorem otp_range_witness :
    100000 ≤ otpNumber (1 / 2) ∧ otpNumber (1 / 2) ≤ 999999 ∧
    otpCode (1 / 2) = toString (otpNumber (1 / 2)) ∧
    (otpCode (1 / 2)).length = 6 ∧ (otpCode (1 / 2)).toList.head? ≠ some '0' ∧
    ∀ c ∈ (otpCode (1 / 2)).toList, c.isDigit = true :=
  otp_range.1 (1 / 2) isDouble_half (by norm_num) (by norm_num)


theorem roundHalfEven_of_near (q : ℚ) (n : ℤ) (h1 : (n : ℚ) - 1 / 2 < q)
    (h2 : q < (n : ℚ) + 1 / 2) : roundHalfEven q = n := by
  obtain ⟨a, b⟩ := roundHalfEven_near q
  have lo : ((n - 1 : ℤ) : ℚ) < (roundHalfEven q : ℚ) := by
    push_cast
    linarith
  have hi : (roundHalfEven q : ℚ) < ((n + 1 : ℤ) : ℚ) := by
    push_cast
    linarith
  have lo2 : n - 1 < roundHalfEven q := by exact_mod_cast lo
  have hi2 : roundHalfEven q < n + 1 := by exact_mod_cast hi
  omega

/-- The binary64 computation and the exact one can differ by one: at the draw
`1916116509459809 / 2 ^ 52` the product rounds up to `382917`, so the code is
`482917` where the exact expression gives `482916`. -/
theorem otpNumber_rounds_up :
    otpNumber (1916116509459809 / 4503599627370496) = 482917 ∧
    otpNumberExact (1916116509459809 / 4503599627370496) = 482916 := by
  constructor
  · have hp : roundDouble (1916116509459809 / 4503599627370496 * 900000) = 382917 := by
      rw [roundDouble_of_binade _ 18 (by norm_num) (by norm_num),
        roundHalfEven_of_near _ 6578463968329728 (by norm_num) (by norm_num)]
      norm_num
    have hs : roundDouble (100000 + 382917) = 482917 := by
      have : (100000 + 382917 : ℚ) = 482917 := by norm_num
      rw [this]
      apply roundDouble_of_grid 482917 18 (482917 * 2 ^ 34) <;> norm_num
    unfold otpNumber
    rw [hp, hs]
    exact Int.floor_intCast 482917
  · unfold otpNumberExact
    rw [Int.floor_eq_iff]
    constructor <;> norm_num

/-- C2: in a store with unique `_id`s, after `requestOtp` for a non-empty phone
succeeded with the generated code `c`, the first `verifyOtp` with `c` answers 200
with a token, and a second `verifyOtp` with `c` right after it answers 400
"Invalid OTP" without a token. -/
theorem otp_single_use (J : Jwt) (st : Store) (p : String) (name email : JsVal) (r : ℚ)
    (newId : ObjectId) (t0 t1 t2 : Nat) (hwf : st.WF) (hp : p ≠ "")
    (hr0 : 0 ≤ r) (hr1 : r < 1)
    (hok : (requestOtp st ⟨.str p, name, email⟩ r newId t0).res.status = 200) :
    (verifyOtp J (requestOtp st ⟨.str p, name, email⟩ r newId t0).store
        ⟨.str p, .str (otpCode r)⟩ t1).res.status = 200 ∧
    (∃ token, (verifyOtp J (requestOtp st ⟨.str p, name, email⟩ r newId t0).store
        ⟨.str p, .str (otpCode r)⟩ t1).res.body.token = some token) ∧
    (verifyOtp J
        (verifyOtp J (requestOtp st ⟨.str p, name, email⟩ r newId t0).store
          ⟨.str p, .str (otpCode r)⟩ t1).store
        ⟨.str p, .str (otpCode r)⟩ t2).res = ⟨400, .message "Invalid OTP"⟩ ∧
    (verifyOtp J
        (verifyOtp J (requestOtp st ⟨.str p, name, email⟩ r newId t0).store
          ⟨.str p, .str (otpCode r)⟩ t1).store
        ⟨.str p, .str (otpCode r)⟩ t2).res.body.token = none := by
  have _ := hr0
  have _ := hr1
  have hpt : (JsVal.str p).truthy = true := by simp [JsVal.truthy, hp]
  have hct := otpCode_truthy r
  obtain ⟨hwf1, user, hf1, hotp⟩ :=
    requestOtp_stores_code st p name email r newId t0 hwf hp hok
  have hs1 : user.otp.strictNe (.str (otpCode r)) = false := by
    rw [hotp]; exact strictNe_str_self _
  have hv1 := verifyOtp_match J (requestOtp st ⟨.str p, name, email⟩ r newId t0).store
    ⟨.str p, .str (otpCode r)⟩ t1 user hpt hct hf1 hs1
  obtain ⟨stored, hf2, hnull, _⟩ :=
    findOne_saveOtp (requestOtp st ⟨.str p, name, email⟩ r newId t0).store (.str p) user
      .null t1 hwf1 hf1
  have hs2 : stored.otp.strictNe (.str (otpCode r)) = true :=
    strictNe_of_no_pending _ _ (Or.inl hnull) hct
  have hv2 := verifyOtp_mismatch J
    (User.saveOtp (requestOtp st ⟨.str p, name, email⟩ r newId t0).store user .null t1)
    ⟨.str p, .str (otpCode r)⟩ t2 stored hpt hct hf2 hs2
  have hst : (verifyOtp J (requestOtp st ⟨.str p, name, email⟩ r newId t0).store
      ⟨.str p, .str (otpCode r)⟩ t1).store =
      User.saveOtp (requestOtp st ⟨.str p, name, email⟩ r newId t0).store user .null t1 := by
    rw [hv1]
  rw [hst, hv2, hv1]
  exact ⟨rfl, ⟨_, rfl⟩, rfl, rfl⟩

theorem scenario_code : otpCode (382913 / 900000) = "482913" := by
  have hp : roundDouble (382913 / 900000 * 900000) = 382913 := by
    have : (382913 / 900000 * 900000 : ℚ) = 382913 := by norm_num
    rw [this]
    apply roundDouble_of_grid 382913 18 (382913 * 2 ^ 34) <;> norm_num
  have hs : roundDouble (100000 + 382913) = 482913 := by
    have : (100000 + 382913 : ℚ) = 482913 := by norm_num
    rw [this]
    apply roundDouble_of_grid 482913 18 (482913 * 2 ^ 34) <;> norm_num
  have h : otpNumber (382913 / 900000) = 482913 := by
    unfold otpNumber
    rw [hp, hs]
    exact Int.floor_intCast 482913
  rw [otpCode, h]
  decide

theorem otp_single_use_witness :
    (verifyOtp demoJwt
        (requestOtp demoStore ⟨.str "9998887776", .undefined, .undefined⟩
          (382913 / 900000) "65f0c3" 900).store
        ⟨.str "9998887776", .str (otpCode (382913 / 900000))⟩ 1000).res.status = 200 ∧
    (verifyOtp demoJwt
        (verifyOtp demoJwt
          (requestOtp demoStore ⟨.str "9998887776", .undefined, .undefined⟩
            (382913 / 900000) "65f0c3" 900).store
          ⟨.str "9998887776", .str (otpCode (382913 / 900000))⟩ 1000).store
        ⟨.str "9998887776", .str (otpCode (382913 / 900000))⟩ 1001).res =
      ⟨400, .message "Invalid OTP"⟩ :=
  have h := otp_single_use demoJwt demoStore "9998887776" .undefined .undefined
    (382913 / 900000) "65f0c3" 900 1000 1001 (by decide) (by decide) (by norm_num)
    (by norm_num) (by decide)
  ⟨h.1, h.2.2.1⟩

theorem castTrim_ofOption (odm : Odm) (name : Option String) :
    castTrim odm (.ofOption name) = .ok (.ofOption (name.map jsTrim)) := by
  cases name <;> rfl

theorem castString_ofOption (odm : Odm) (email : Option String) :
    castString odm (.ofOption email) = .ok (.ofOption email) := by
  cases email <;> rfl

/-- C10 fails as stated: the schema declares `name` with `trim: true`, so a new
citizen created from the name " Ravi " is stored with the name "Ravi", not with
the supplied string; and the schema declares `timestamps: true`, so overwriting
the code of an existing citizen also rewrites the `updatedAt` stamp. -/
theorem requestOtp_trims_name :
    ((requestOtp demoStore ⟨.str "9990001112", .str " Ravi ", .undefined⟩ (1 / 2)
        "65f0c3" 2000).res.status = 200 ∧
      (requestOtp demoStore ⟨.str "9990001112", .str " Ravi ", .undefined⟩ (1 / 2)
        "65f0c3" 2000).store.users.map (·.name) = [.str "Asha", .str "Ravi"] ∧
      (requestOtp demoStore ⟨.str "9990001112", .str " Ravi ", .undefined⟩ (1 / 2)
        "65f0c3" 2000).store.users.map (·.name) ≠ [.str "Asha", .str " Ravi "]) ∧
    (asha.updatedAt = 500 ∧
      (requestOtp demoStore ⟨.str "9998887776", .undefined, .undefined⟩ (1 / 2)
        "65f0c3" 2000).store.users.map (·.updatedAt) = [2000]) := by
  refine ⟨by decide, rfl, ?_⟩
  rw [requestOtp_existing demoStore ⟨.str "9998887776", .undefined, .undefined⟩ (1 / 2)
    "65f0c3" 2000 asha (by decide) (by decide), otpCode_half]
  decide

/-- C10 (as the code has it): in a store with unique `_id`s and for a non-empty
phone, when no citizen has the phone and the save succeeds, the store gains
exactly one citizen, appended, with that phone, the supplied name with
surrounding white space trimmed, the supplied email, the generated code and both
stamps set to the time of the request, and the answer is 200; when a citizen has
the phone, only the `otp` of that citizen changes, together with its `updatedAt`
stamp (and neither changes when the stored code already is the generated one),
whatever name and email the request carries, every other document is unchanged
and the answer is 200; when the phone is missing the answer is 400 and the store
is unchanged. -/
theorem requestOtp_create_or_overwrite (st : Store) (p : String) (r : ℚ) (newId : ObjectId)
    (now : Nat) (hwf : st.WF) (hp : p ≠ "") :
    (∀ name email : Option String, User.findOne st (.str p) = none →
      (requestOtp st ⟨.str p, .ofOption name, .ofOption email⟩ r newId now).res.status
        = 200 →
      (requestOtp st ⟨.str p, .ofOption name, .ofOption email⟩ r newId now).res =
        ⟨200, .message "OTP sent successfully"⟩ ∧
      (requestOtp st ⟨.str p, .ofOption name, .ofOption email⟩ r newId now).store =
        { st with users := st.users ++
            [{ _id := newId, name := .ofOption (name.map jsTrim), phone := .str p,
               email := .ofOption email, otp := .str (otpCode r), createdAt := now,
               updatedAt := now }] }) ∧
    (∀ (name email : JsVal) (user : User), User.findOne st (.str p) = some user →
      (requestOtp st ⟨.str p, name, email⟩ r newId now).res =
        ⟨200, .message "OTP sent successfully"⟩ ∧
      ∃ pre post, st.users = pre ++ user :: post ∧ (∀ x ∈ pre, x.phone ≠ .str p) ∧
        (requestOtp st ⟨.str p, name, email⟩ r newId now).store =
          { st with users := pre ++
              (if user.otp = .str (otpCode r) then user
               else { user with otp := .str (otpCode r), updatedAt := now }) :: post }) ∧
    (∀ body : RequestOtpBody, body.phone.truthy = false →
      (requestOtp st body r newId now).res = ⟨400, .message "Phone number is required"⟩ ∧
      (requestOtp st body r newId now).store = st) := by
  have hpt : (JsVal.str p).truthy = true := by simp [JsVal.truthy, hp]
  refine ⟨fun name email hf hok => ?_, fun name email user hf => ?_, fun body hb => ?_⟩
  · obtain ⟨storedName, storedEmail, hn, he, heq, _⟩ :=
      requestOtp_new st p (.ofOption name) (.ofOption email) r newId now hp hf hok
    rw [castTrim_ofOption] at hn
    rw [castString_ofOption] at he
    injection hn with hn
    injection he with he
    rw [heq, ← hn, ← he]
    exact ⟨rfl, rfl⟩
  · rw [requestOtp_existing st ⟨.str p, name, email⟩ r newId now user hpt hf]
    refine ⟨rfl, ?_⟩
    have hfind : st.users.find? (fun u => decide (u.phone = JsVal.str p)) = some user := hf
    obtain ⟨pre, post, hxs, hpre, hset⟩ :=
      setOtp_of_find (fun stored => decide (stored = JsVal.str p)) (.str (otpCode r)) now
        user st.users hwf.1 hfind
    refine ⟨pre, post, hxs, fun x hx => by simpa using hpre x hx, ?_⟩
    unfold User.saveOtp
    by_cases heq : user.otp = .str (otpCode r)
    · simp only [heq, if_true]
      rw [← hxs]
    · simp only [heq, if_false, hset]
  · rw [requestOtp_missing st body r newId now hb]
    exact ⟨rfl, rfl⟩

theorem requestOtp_create_or_overwrite_witness :
    (requestOtp demoStore ⟨.str "9998887776", .str "Someone else", .str "x@example.org"⟩
        (1 / 2) "65f0c3" 2000).res = ⟨200, .message "OTP sent successfully"⟩ ∧
    ∃ pre post, demoStore.users = pre ++ asha :: post ∧
      (∀ x ∈ pre, x.phone ≠ .str "9998887776") ∧
      (requestOtp demoStore ⟨.str "9998887776", .str "Someone else", .str "x@example.org"⟩
          (1 / 2) "65f0c3" 2000).store =
        { demoStore with users := pre ++
            (if asha.otp = .str (otpCode (1 / 2)) then asha
             else { asha with otp := .str (otpCode (1 / 2)), updatedAt := 2000 }) :: post } :=
  (requestOtp_create_or_overwrite demoStore "9998887776" (1 / 2) "65f0c3" 2000
    (by decide) (by decide)).2.1 (.str "Someone else") (.str "x@example.org") asha (by decide)

/-! ### No login without a pending code -/

theorem verifyOtp_no_pending (J : Jwt) (st : Store) (phone otp : JsVal) (now : Nat)
    (user : User) (hf : User.findOne st phone = some user)
    (hno : user.otp = .null ∨ user.otp = .undefined) :
    (verifyOtp J st ⟨phone, otp⟩ now).store = st ∧
    (verifyOtp J st ⟨phone, otp⟩ now).res.body.token = none ∧
    (verifyOtp J st ⟨phone, otp⟩ now).res.status = 400 := by
  by_cases hp : phone.truthy = true
  · by_cases ho : otp.truthy = true
    · have hne : user.otp.strictNe otp = true := strictNe_of_no_pending _ _ hno ho
      rw [verifyOtp_mismatch J st ⟨phone, otp⟩ now user hp ho hf hne]
      exact ⟨rfl, rfl, rfl⟩
    · have ho2 : otp.truthy = false := by simpa using ho
      rw [verifyOtp_missing J st ⟨phone, otp⟩ now (Or.inr ho2)]
      exact ⟨rfl, rfl, rfl⟩
  · have hp2 : phone.truthy = false := by simpa using hp
    rw [verifyOtp_missing J st ⟨phone, otp⟩ now (Or.inl hp2)]
    exact ⟨rfl, rfl, rfl⟩

theorem verifyOtpRepeated_no_pending (J : Jwt) (st : Store) (phone : JsVal) (user : User)
    (hf : User.findOne st phone = some user)
    (hno : user.otp = .null ∨ user.otp = .undefined) (attempts : List (JsVal × Nat)) :
    (verifyOtpRepeated J phone st attempts).1 = st ∧
    (verifyOtpRepeated J phone st attempts).2.length = attempts.length ∧
    ∀ res ∈ (verifyOtpRepeated J phone st attempts).2,
      res.body.token = none ∧ res.status = 400 := by
  induction attempts with
  | nil => simp [verifyOtpRepeated]
  | cons a rest ih =>
    obtain ⟨otp, now⟩ := a
    obtain ⟨hst, htok, hstatus⟩ := verifyOtp_no_pending J st phone otp now user hf hno
    obtain ⟨ih1, ih2, ih3⟩ := ih
    simp only [verifyOtpRepeated, hst, ih1, List.length_cons, ih2, List.mem_cons, true_and]
    intro res hres
    rcases hres with h | h
    · rw [h]; exact ⟨htok, hstatus⟩
    · exact ih3 res h

/-- C11: when the citizen stored for a phone has no pending code (its `otp` is
null or absent), `verifyOtp` for that phone issues no token and leaves the store
unchanged whatever the `otp` field of the request holds, and so does every
sequence of such requests; once `requestOtp` has run for the phone, the code it
generated obtains a token again. -/
theorem no_login_without_pending_code (J : Jwt) (st : Store) (phone : JsVal) (user : User)
    (hf : User.findOne st phone = some user)
    (hno : user.otp = .null ∨ user.otp = .undefined) :
    (∀ (otp : JsVal) (now : Nat),
      (verifyOtp J st ⟨phone, otp⟩ now).store = st ∧
      (verifyOtp J st ⟨phone, otp⟩ now).res.body.token = none ∧
      (verifyOtp J st ⟨phone, otp⟩ now).res.status = 400) ∧
    (∀ attempts : List (JsVal × Nat),
      (verifyOtpRepeated J phone st attempts).1 = st ∧
      ∀ res ∈ (verifyOtpRepeated J phone st attempts).2,
        res.body.token = none ∧ res.status = 400) ∧
    (∀ (name email : JsVal) (r : ℚ) (newId : ObjectId) (t0 now : Nat),
      st.WF → phone.truthy = true → 0 ≤ r → r < 1 →
      (verifyOtp J (requestOtp st ⟨phone, name, email⟩ r newId t0).store
          ⟨phone, .str (otpCode r)⟩ now).res.status = 200 ∧
      ∃ token, (verifyOtp J (requestOtp st ⟨phone, name, email⟩ r newId t0).store
          ⟨phone, .str (otpCode r)⟩ now).res.body.token = some token) := by
  refine ⟨fun otp now => verifyOtp_no_pending J st phone otp now user hf hno,
    fun attempts => ?_, fun name email r newId t0 now hwf hp _ _ => ?_⟩
  · obtain ⟨h1, _, h3⟩ := verifyOtpRepeated_no_pending J st phone user hf hno attempts
    exact ⟨h1, h3⟩
  · rw [requestOtp_existing st ⟨phone, name, email⟩ r newId t0 user hp hf]
    obtain ⟨stored, hf1, hotp, _⟩ :=
      findOne_saveOtp st phone user (.str (otpCode r)) t0 hwf hf
    have hs : stored.otp.strictNe (.str (otpCode r)) = false := by
      rw [hotp]; exact strictNe_str_self _
    rw [verifyOtp_match J (User.saveOtp st user (.str (otpCode r)) t0)
      ⟨phone, .str (otpCode r)⟩ now stored hp (otpCode_truthy r) hf1 hs]
    exact ⟨rfl, _, rfl⟩

theorem no_login_without_pending_code_witness :
    (verifyOtp demoJwt clashStore ⟨.str "9990001112", .str "null"⟩ 1000).store = clashStore ∧
    (verifyOtp demoJwt clashStore ⟨.str "9990001112", .str "null"⟩ 1000).res.body.token =
      none ∧
    (verifyOtp demoJwt clashStore ⟨.str "9990001112", .str "null"⟩ 1000).res.status = 400 :=
  (no_login_without_pending_code demoJwt clashStore (.str "9990001112")
    { _id := "65f0b2", name := .str "Ravi", phone := .str "9990001112",
      email := .undefined, otp := .null, createdAt := 200, updatedAt := 700 }
    (by decide) (by decide)).1 (.str "null") 1000


end WaterQuality
